import Mathlib

/-!
# forge-memory: a shallow embedding of the allocator front-end and the memory utilities

The C++ sources embedded here are

* `Source/Public/forge-memory/Policies/IAllocationPolicy.hpp` (the policy interface),
* `Source/Private/Policies/NoAllocationPolicy.inl`,
* `Source/Private/Policies/HeapAllocationPolicy.inl`,
* `Source/Private/MemoryUtilities.inl` (the byte-level and the object-lifecycle operations),
* `Source/Private/Allocator.inl`.

Conventions.

* `Size` is an unsigned machine integer whose declaration (`forge-base/Core/Types.hpp`) is not
  part of the sources.  Its width in bits is the parameter `w` of every operation that does
  arithmetic on a `Size`; values of type `Size` are natural numbers below `2 ^ w` and every
  `+=` / `-=` is reduced modulo `2 ^ w`.
* `VoidPtr` is a natural number, the null pointer is `0`.
* A C++ call that does not return normally yields `Except.error`: a thrown
  `std::invalid_argument`, any other exception thrown by a policy, or the integer division by
  a zero `m_capacity` (undefined behaviour in C++).  The two member functions that call
  themselves take a bound on the depth of nested activations and yield `none` when they have
  not returned within it.
* `m_used_space` is a `Float32` in the source.  The expression assigned to it,
  `(m_total_size / m_capacity) * 100.0f`, is an integer quotient, converted to `Float32`, times
  one hundred in `Float32`.  Both steps round to the nearest value with 24 significant bits
  (ties to even), and every value they produce is a natural number, so the field is a
  natural number: the one the `Float32` holds (see `roundFloat32`).
-/

namespace Forge

/-- Ways in which a call can fail to return normally. -/
inductive Fault where
  /-- A `std::invalid_argument` thrown by the Memory Utilities. -/
  | invalidArgument
  /-- The integer division `m_total_size / m_capacity` with `m_capacity == 0`. -/
  | divisionByZero
  /-- Any other exception raised by an allocation policy. -/
  | policyFailure
  deriving DecidableEq, Repr

/-- Addresses; `VoidPtr` in the source. -/
abbrev VoidPtr := Nat

/-- The null address. -/
abbrev nullptr : VoidPtr := 0

/-- Byte-addressed memory: the byte stored at every address. -/
abbrev Memory := Nat → Nat

/-! ## Memory Utilities: the byte-level operations

Every operation takes the memory before the call.  An operation that writes returns the
memory after the call; an operation that raises returns `Except.error` and no memory, because
each of them tests its pointers before its first write (see `memoryAfter`). -/

/-- The C library `memset(destination, value, size)`. -/
def memset (m : Memory) (destination : VoidPtr) (value size : Nat) : Memory :=
  fun a => if destination ≤ a ∧ a < destination + size then value else m a

/-- `MemorySet` of `MemoryUtilities.inl`. -/
def MemorySet (m : Memory) (destination : VoidPtr) (value size : Nat) : Except Fault Memory :=
  if destination = nullptr then
    Except.error Fault.invalidArgument
  else
    Except.ok (memset m destination value size)

/-- The C library `memcpy(destination, source, size)`: byte `i` of the destination receives
byte `i` of the source.  C leaves the result undefined when the regions overlap; the
embedding reads every source byte from the memory before the call. -/
def memcpy (m : Memory) (destination source : VoidPtr) (size : Nat) : Memory :=
  fun a =>
    if destination ≤ a ∧ a < destination + size then m (source + (a - destination)) else m a

/-- The C library `memcmp(self, other, size)`: zero when the first `size` bytes agree,
otherwise the difference of the first pair of bytes that differ. -/
def memcmp (m : Memory) : VoidPtr → VoidPtr → Nat → Int
  | _, _, 0 => 0
  | self, other, size + 1 =>
    if m self = m other then memcmp m (self + 1) (other + 1) size
    else (m self : Int) - (m other : Int)

/-- `MemoryZero` of `MemoryUtilities.inl`. -/
def MemoryZero (m : Memory) (destination : VoidPtr) (size : Nat) : Except Fault Memory :=
  MemorySet m destination 0 size

/-- `MemoryMove` of `MemoryUtilities.inl`: `memcpy`, then `memset(source, 0, size)`. -/
def MemoryMove (m : Memory) (destination source : VoidPtr) (size : Nat) :
    Except Fault Memory :=
  if destination = nullptr ∨ source = nullptr then
    Except.error Fault.invalidArgument
  else
    Except.ok (memset (memcpy m destination source size) source 0 size)

/-- `MemoryCopy` of `MemoryUtilities.inl`. -/
def MemoryCopy (m : Memory) (destination source : VoidPtr) (size : Nat) :
    Except Fault Memory :=
  if destination = nullptr ∨ source = nullptr then
    Except.error Fault.invalidArgument
  else
    Except.ok (memcpy m destination source size)

/-- `MemoryCompare` of `MemoryUtilities.inl`: the memory after the call (both pointers are
pointers to `const`, nothing is written) and `memcmp(self, other, size) == 0`. -/
def MemoryCompare (m : Memory) (self other : VoidPtr) (size : Nat) :
    Except Fault (Memory × Bool) :=
  if self = nullptr ∨ other = nullptr then
    Except.error Fault.invalidArgument
  else
    Except.ok (m, decide (memcmp m self other size = 0))

/-- The memory after a call of a writing operation that started in `m`: the memory the call
returns, and `m` itself when the call raises. -/
def memoryAfter (m : Memory) : Except Fault Memory → Memory
  | Except.ok m1 => m1
  | Except.error _ => m

/-- `MemoryDistance` of `MemoryUtilities.inl`:
`reinterpret_cast<Size>(start) - reinterpret_cast<Size>(final)`, a subtraction of two
unsigned integers of `w` bits, which wraps around below zero. -/
def MemoryDistance (w : Nat) (start final : VoidPtr) : Nat :=
  (start + (2 ^ w - final % 2 ^ w)) % 2 ^ w

/-! ## Memory Utilities: the object-lifecycle operations

The element type `InType` of the templates is a parameter: whether it is plain data
(`std::is_pod<InType>::value`), its `sizeof`, and, for a managed type, what its default
constructor, destructor and assignment operators do to memory.  Every call of one of these
four is recorded, in order, so that calls can be counted.  `InType* + counter` is the address
`counter * sizeof(InType)` bytes further. -/

/-- A call received by a managed element type. -/
inductive LifecycleCall where
  /-- `new (address) InType()`. -/
  | defaultConstruct (address : VoidPtr)
  /-- `address->~InType()`. -/
  | destruct (address : VoidPtr)
  /-- `*destination = *source`. -/
  | copyAssign (destination source : VoidPtr)
  /-- `*destination = std::move(*source)`. -/
  | moveAssign (destination source : VoidPtr)
  deriving DecidableEq, Repr

/-- The element type `InType` of the lifecycle templates. -/
structure ElementType where
  /-- `std::is_pod<InType>::value`. -/
  is_pod : Bool
  /-- `sizeof(InType)`. -/
  sizeof : Nat
  /-- What the default constructor at an address does to memory. -/
  defaultConstruct : Memory → VoidPtr → Memory
  /-- What the destructor at an address does to memory. -/
  destruct : Memory → VoidPtr → Memory
  /-- What copy assignment to `destination` from `source` does to memory. -/
  copyAssign : Memory → VoidPtr → VoidPtr → Memory
  /-- What move assignment to `destination` from `source` does to memory. -/
  moveAssign : Memory → VoidPtr → VoidPtr → Memory

/-- The state the lifecycle operations act on: the memory, and the calls the managed element
type has received so far, oldest first. -/
structure Objects where
  /-- The contents of memory. -/
  memory : Memory
  /-- The lifecycle calls made so far. -/
  calls : List LifecycleCall

/-- One `new (address) InType()`. -/
def callDefaultConstruct (T : ElementType) (s : Objects) (address : VoidPtr) : Objects :=
  { memory := T.defaultConstruct s.memory address
    calls := s.calls ++ [LifecycleCall.defaultConstruct address] }

/-- One `address->~InType()`. -/
def callDestruct (T : ElementType) (s : Objects) (address : VoidPtr) : Objects :=
  { memory := T.destruct s.memory address
    calls := s.calls ++ [LifecycleCall.destruct address] }

/-- One `*destination = *source`. -/
def callCopyAssign (T : ElementType) (s : Objects) (destination source : VoidPtr) : Objects :=
  { memory := T.copyAssign s.memory destination source
    calls := s.calls ++ [LifecycleCall.copyAssign destination source] }

/-- One `*destination = std::move(*source)`. -/
def callMoveAssign (T : ElementType) (s : Objects) (destination source : VoidPtr) : Objects :=
  { memory := T.moveAssign s.memory destination source
    calls := s.calls ++ [LifecycleCall.moveAssign destination source] }

/-- The loop `for (Size counter = 0; counter < count; counter++) body(counter)`. -/
def forCounter (count : Nat) (body : Objects → Nat → Objects) (s : Objects) : Objects :=
  (List.range count).foldl body s

/-- A byte-level operation applied to the memory of the state. -/
def onMemory (s : Objects) (r : Except Fault Memory) : Except Fault Objects :=
  match r with
  | Except.error e => Except.error e
  | Except.ok m => Except.ok { memory := m, calls := s.calls }

/-- `MoveObject(InType& self, InType& other)`; the two references are given by their
addresses. -/
def MoveObject (T : ElementType) (s : Objects) (self other : VoidPtr) : Except Fault Objects :=
  if T.is_pod then
    onMemory s (MemoryMove s.memory self other T.sizeof)
  else
    Except.ok (callMoveAssign T s self other)

/-- `MoveArray(InType* destination, InType* source, Size count)`. -/
def MoveArray (w : Nat) (T : ElementType) (s : Objects) (destination source : VoidPtr)
    (count : Nat) : Except Fault Objects :=
  if T.is_pod then
    onMemory s (MemoryMove s.memory destination source (T.sizeof * count % 2 ^ w))
  else
    Except.ok (forCounter count
      (fun s1 counter =>
        callMoveAssign T s1 (destination + counter * T.sizeof) (source + counter * T.sizeof))
      s)

/-- `CopyObject(InType& destination, const InType& object)`. -/
def CopyObject (T : ElementType) (s : Objects) (destination object : VoidPtr) :
    Except Fault Objects :=
  if T.is_pod then
    onMemory s (MemoryCopy s.memory destination object T.sizeof)
  else
    Except.ok (callCopyAssign T s destination object)

/-- `CopyArray(InType* destination, const InType* source, Size count)`. -/
def CopyArray (w : Nat) (T : ElementType) (s : Objects) (destination source : VoidPtr)
    (count : Nat) : Except Fault Objects :=
  if T.is_pod then
    onMemory s (MemoryCopy s.memory destination source (T.sizeof * count % 2 ^ w))
  else
    Except.ok (forCounter count
      (fun s1 counter =>
        callCopyAssign T s1 (destination + counter * T.sizeof) (source + counter * T.sizeof))
      s)

/-- `ConstructObject(InType* destination)`: nothing for plain data. -/
def ConstructObject (T : ElementType) (s : Objects) (destination : VoidPtr) : Objects :=
  if T.is_pod then s else callDefaultConstruct T s destination

/-- `ConstructArray(InType* destination, Size count)`: nothing for plain data. -/
def ConstructArray (T : ElementType) (s : Objects) (destination : VoidPtr) (count : Nat) :
    Objects :=
  if T.is_pod then s
  else
    forCounter count
      (fun s1 counter => callDefaultConstruct T s1 (destination + counter * T.sizeof)) s

/-- `DestructObject(InType* destination)`. -/
def DestructObject (T : ElementType) (s : Objects) (destination : VoidPtr) :
    Except Fault Objects :=
  if T.is_pod then
    onMemory s (MemoryZero s.memory destination T.sizeof)
  else
    Except.ok (callDestruct T s destination)

/-- `DestructArray(InType* destination, Size count)`. -/
def DestructArray (w : Nat) (T : ElementType) (s : Objects) (destination : VoidPtr)
    (count : Nat) : Except Fault Objects :=
  if T.is_pod then
    onMemory s (MemoryZero s.memory destination (T.sizeof * count % 2 ^ w))
  else
    Except.ok (forCounter count
      (fun s1 counter => callDestruct T s1 (destination + counter * T.sizeof)) s)

/-! ## The allocation policy interface -/

/-- `IAllocationPolicy`: the seven operations of a policy over its private pool state.
Each operation either returns normally (with the new pool state, and an address where the C++
signature returns one) or raises. -/
structure Policy where
  /-- The pool state private to the policy. -/
  Pool : Type
  /-- `Void Initialize(Size capacity)`. -/
  Initialize : Pool → Nat → Except Fault Pool
  /-- `Void Deinitialize()`. -/
  Deinitialize : Pool → Except Fault Pool
  /-- `VoidPtr Allocate(Size size, Size alignment)`. -/
  Allocate : Pool → Nat → Nat → Except Fault (Pool × VoidPtr)
  /-- `VoidPtr Callocate(Size size, Byte value, Size alignment)`. -/
  Callocate : Pool → Nat → Nat → Nat → Except Fault (Pool × VoidPtr)
  /-- `VoidPtr Reallocate(VoidPtr address, Size size, Size alignment)`. -/
  Reallocate : Pool → VoidPtr → Nat → Nat → Except Fault (Pool × VoidPtr)
  /-- `Void Deallocate(VoidPtr address)`. -/
  Deallocate : Pool → VoidPtr → Except Fault Pool
  /-- `Void Reset()`. -/
  Reset : Pool → Except Fault Pool

/-- `NoAllocationPolicy` of `NoAllocationPolicy.inl`: no pool state, every allocation request
returns `nullptr`, everything else does nothing. -/
def NoAllocationPolicy : Policy where
  Pool := Unit
  Initialize := fun p _capacity => Except.ok p
  Deinitialize := fun p => Except.ok p
  Allocate := fun p _size _alignment => Except.ok (p, nullptr)
  Callocate := fun p _size _value _alignment => Except.ok (p, nullptr)
  Reallocate := fun p _address _size _alignment => Except.ok (p, nullptr)
  Deallocate := fun p _address => Except.ok p
  Reset := fun p => Except.ok p

/-- The host's aligned heap primitives `_aligned_malloc`, `_aligned_realloc` and
`_aligned_free`, which the heap policy delegates to.  They are external to the repository and
therefore a parameter: `Heap` is the host's bookkeeping, `_aligned_realloc` may also move
bytes. -/
structure Host where
  /-- The host allocator's bookkeeping. -/
  Heap : Type
  /-- `_aligned_malloc(size, alignment)`. -/
  aligned_malloc : Heap → Nat → Nat → Heap × VoidPtr
  /-- `_aligned_realloc(address, size, alignment)`. -/
  aligned_realloc : Heap → Memory → VoidPtr → Nat → Nat → Heap × Memory × VoidPtr
  /-- `_aligned_free(address)`. -/
  aligned_free : Heap → VoidPtr → Heap

/-- The pool seen by the heap policy: the host heap and the bytes of memory. -/
structure HeapPool (H : Host) where
  /-- The host allocator's bookkeeping. -/
  heap : H.Heap
  /-- The contents of memory. -/
  memory : Memory

/-- `HeapAllocationPolicy` of `HeapAllocationPolicy.inl`. -/
def HeapAllocationPolicy (H : Host) : Policy where
  Pool := HeapPool H
  Initialize := fun p _capacity => Except.ok p
  Deinitialize := fun p => Except.ok p
  Allocate := fun p size alignment =>
    let r := H.aligned_malloc p.heap size alignment
    Except.ok ({ heap := r.1, memory := p.memory }, r.2)
  Callocate := fun p size value alignment =>
    let r := H.aligned_malloc p.heap size alignment
    match MemorySet p.memory r.2 value size with
    | Except.error e => Except.error e
    | Except.ok m => Except.ok ({ heap := r.1, memory := m }, r.2)
  Reallocate := fun p address size alignment =>
    let r := H.aligned_realloc p.heap p.memory address size alignment
    Except.ok ({ heap := r.1, memory := r.2.1 }, r.2.2)
  Deallocate := fun p address =>
    Except.ok { heap := H.aligned_free p.heap address, memory := p.memory }
  Reset := fun p => Except.ok p

/-! ## The allocator front-end -/

/-- `Allocator::AllocationStats`. -/
structure AllocationStats where
  /-- Field `m_peak_size`. -/
  m_peak_size : Nat
  /-- Field `m_total_size`. -/
  m_total_size : Nat
  /-- Field `m_num_of_allocations`. -/
  m_num_of_allocations : Nat
  /-- Field `m_num_of_deallocations`. -/
  m_num_of_deallocations : Nat
  deriving DecidableEq, Repr

/-- The data members of `Allocator<AllocationPolicy>`. -/
structure Allocator (P : Policy) where
  /-- Field `m_capacity`. -/
  m_capacity : Nat
  /-- Field `m_used_space`: the natural number held by the `Float32`. -/
  m_used_space : Nat
  /-- Field `m_allocation_stats`. -/
  m_allocation_stats : AllocationStats
  /-- Field `m_allocation_policy`. -/
  m_allocation_policy : P.Pool

namespace Allocator

variable {P : Policy}

/-- `Allocator::GetCapacity`. -/
def GetCapacity (self : Allocator P) : Nat := self.m_capacity

/-- `Allocator::GetUsedSpace`. -/
def GetUsedSpace (self : Allocator P) : Nat := self.m_used_space

/-- `Allocator::GetPeakSize`. -/
def GetPeakSize (self : Allocator P) : Nat := self.m_allocation_stats.m_peak_size

/-- `Allocator::GetTotalSize`. -/
def GetTotalSize (self : Allocator P) : Nat := self.m_allocation_stats.m_total_size

/-- `Allocator::GetNumOfAllocations`.  The source reads `m_num_of_allocs`, a name the
statistics structure does not declare; the embedding reads the declared counter
`m_num_of_allocations` that `Initialize`, `Allocate` and `Reset` write. -/
def GetNumOfAllocations (self : Allocator P) : Nat :=
  self.m_allocation_stats.m_num_of_allocations

/-- `Allocator::GetNumOfDeallocations` (the source reads `m_num_of_deallocs`; see
`GetNumOfAllocations`). -/
def GetNumOfDeallocations (self : Allocator P) : Nat :=
  self.m_allocation_stats.m_num_of_deallocations

/-- `Allocator::GetAllocatedSize`: the body is `return 0;`. -/
def GetAllocatedSize (_self : Allocator P) (_address : VoidPtr) : Nat := 0

/-- The number of low bits a natural number has beyond the 24 significant bits of a
`Float32`: how often it must be halved to fall below `2 ^ 24`.  The first argument bounds the
number of halvings and is given as the number itself. -/
def excessBits : Nat → Nat → Nat
  | 0, _ => 0
  | bound + 1, n => if n < 2 ^ 24 then 0 else excessBits bound (n / 2) + 1

/-- Rounding of a natural number to `Float32`: below `2 ^ 24` every natural number is a
`Float32`; from there on only the multiples of `2 ^ e` with 24 significant bits are, and the
nearest one is taken, the one with an even significand on a tie.  The exponent range of
`Float32` is not exceeded by one hundred times a `Size` of up to 120 bits and is not
modelled. -/
def roundFloat32 (n : Nat) : Nat :=
  let e := excessBits n n
  let significand := n / 2 ^ e
  let rest := n % 2 ^ e
  if 2 ^ e < 2 * rest ∨ (2 * rest = 2 ^ e ∧ significand % 2 = 1) then
    (significand + 1) * 2 ^ e
  else
    significand * 2 ^ e

/-- The `Float32` product `quotient * 100.0f` for a quotient of type `Size`: the quotient is
converted to `Float32`, and the product is rounded to `Float32`. -/
def percentage (quotient : Nat) : Nat :=
  roundFloat32 (roundFloat32 quotient * 100)

/-- The right-hand side of every `m_used_space = (m_total_size / m_capacity) * 100.0f`:
an integer division of two `Size` values, then the product with one hundred. -/
def usedSpace (total_size capacity : Nat) : Except Fault Nat :=
  if capacity = 0 then
    Except.error Fault.divisionByZero
  else
    Except.ok (percentage (total_size / capacity))

/-- The test `alignment < 1 || (alignment & (alignment - 1)) != 0` of `Allocate`, `Callocate`
and `Reallocate`.  For `alignment = 0` the left operand already decides the test, so the
truncated subtraction of `Nat` does not differ from the wrapping one of `Size`. -/
def badAlignment (alignment : Nat) : Bool :=
  decide (alignment < 1) || (alignment &&& (alignment - 1)) != 0

/-- `Allocator::Initialize`.  The source writes the fields first and calls the policy last;
when the policy raises, the exception leaves the call and the allocator is not observed
again, so only the order of the results differs. -/
def Initialize (self : Allocator P) (capacity : Nat) : Except Fault (Allocator P) :=
  match P.Initialize self.m_allocation_policy capacity with
  | Except.error e => Except.error e
  | Except.ok pool =>
    Except.ok
      { m_capacity := capacity
        m_used_space := 0
        m_allocation_stats :=
          { m_peak_size := 0, m_total_size := 0,
            m_num_of_allocations := 0, m_num_of_deallocations := 0 }
        m_allocation_policy := pool }

/-- `Allocator::Deinitialize`. -/
def Deinitialize (self : Allocator P) : Except Fault (Allocator P) :=
  match P.Deinitialize self.m_allocation_policy with
  | Except.error e => Except.error e
  | Except.ok pool =>
    Except.ok
      { m_capacity := 0
        m_used_space := 0
        m_allocation_stats :=
          { m_peak_size := 0, m_total_size := 0,
            m_num_of_allocations := 0, m_num_of_deallocations := 0 }
        m_allocation_policy := pool }

/-- `Allocator::Allocate`: the two validation tests, the policy call, the update of the
statistics in `Size` arithmetic, and the recomputation of `m_used_space`. -/
def Allocate (w : Nat) (self : Allocator P) (size alignment : Nat) :
    Except Fault (Allocator P × VoidPtr) :=
  if size = 0 then
    Except.ok (self, nullptr)
  else if badAlignment alignment then
    Except.ok (self, nullptr)
  else
    match P.Allocate self.m_allocation_policy size alignment with
    | Except.error e => Except.error e
    | Except.ok (pool, address) =>
      let peak_size :=
        if self.m_allocation_stats.m_peak_size < size then size
        else self.m_allocation_stats.m_peak_size
      let total_size := (self.m_allocation_stats.m_total_size + size) % 2 ^ w
      let num_of_allocations := (self.m_allocation_stats.m_num_of_allocations + 1) % 2 ^ w
      match usedSpace total_size self.m_capacity with
      | Except.error e => Except.error e
      | Except.ok used_space =>
        Except.ok
          ({ m_capacity := self.m_capacity
             m_used_space := used_space
             m_allocation_stats :=
               { m_peak_size := peak_size, m_total_size := total_size,
                 m_num_of_allocations := num_of_allocations,
                 m_num_of_deallocations := self.m_allocation_stats.m_num_of_deallocations }
             m_allocation_policy := pool }, address)

/-- `Allocator::Callocate`. -/
def Callocate (w : Nat) (self : Allocator P) (size value alignment : Nat) :
    Except Fault (Allocator P × VoidPtr) :=
  if size = 0 then
    Except.ok (self, nullptr)
  else if badAlignment alignment then
    Except.ok (self, nullptr)
  else
    match P.Callocate self.m_allocation_policy size value alignment with
    | Except.error e => Except.error e
    | Except.ok (pool, address) =>
      let peak_size :=
        if self.m_allocation_stats.m_peak_size < size then size
        else self.m_allocation_stats.m_peak_size
      let total_size := (self.m_allocation_stats.m_total_size + size) % 2 ^ w
      let num_of_allocations := (self.m_allocation_stats.m_num_of_allocations + 1) % 2 ^ w
      match usedSpace total_size self.m_capacity with
      | Except.error e => Except.error e
      | Except.ok used_space =>
        Except.ok
          ({ m_capacity := self.m_capacity
             m_used_space := used_space
             m_allocation_stats :=
               { m_peak_size := peak_size, m_total_size := total_size,
                 m_num_of_allocations := num_of_allocations,
                 m_num_of_deallocations := self.m_allocation_stats.m_num_of_deallocations }
             m_allocation_policy := pool }, address)

/-- The `Size` subtraction `a -= b`, which wraps around below zero. -/
def sizeSub (w a b : Nat) : Nat := (a + (2 ^ w - b % 2 ^ w)) % 2 ^ w

/-- `Allocator::Deallocate`: the subtraction of `GetAllocatedSize(address)`, the policy call,
the counter, and the recomputation of `m_used_space`. -/
def Deallocate (w : Nat) (self : Allocator P) (address : VoidPtr) :
    Except Fault (Allocator P) :=
  let total_size :=
    sizeSub w self.m_allocation_stats.m_total_size (GetAllocatedSize self address)
  match P.Deallocate self.m_allocation_policy address with
  | Except.error e => Except.error e
  | Except.ok pool =>
    let num_of_deallocations := (self.m_allocation_stats.m_num_of_deallocations + 1) % 2 ^ w
    match usedSpace total_size self.m_capacity with
    | Except.error e => Except.error e
    | Except.ok used_space =>
      Except.ok
        { m_capacity := self.m_capacity
          m_used_space := used_space
          m_allocation_stats :=
            { m_peak_size := self.m_allocation_stats.m_peak_size, m_total_size := total_size,
              m_num_of_allocations := self.m_allocation_stats.m_num_of_allocations,
              m_num_of_deallocations := num_of_deallocations }
          m_allocation_policy := pool }

/-- `Allocator::Reallocate`: with `size == 0` it is `this->Deallocate(address)` and
`nullptr`; otherwise the alignment test, the subtraction of `GetAllocatedSize(address)`, the
policy call and the same update as `Allocate`. -/
def Reallocate (w : Nat) (self : Allocator P) (address : VoidPtr) (size alignment : Nat) :
    Except Fault (Allocator P × VoidPtr) :=
  if size = 0 then
    match Deallocate w self address with
    | Except.error e => Except.error e
    | Except.ok self1 => Except.ok (self1, nullptr)
  else if badAlignment alignment then
    Except.ok (self, nullptr)
  else
    let total_size0 :=
      sizeSub w self.m_allocation_stats.m_total_size (GetAllocatedSize self address)
    match P.Reallocate self.m_allocation_policy address size alignment with
    | Except.error e => Except.error e
    | Except.ok (pool, new_address) =>
      let peak_size :=
        if self.m_allocation_stats.m_peak_size < size then size
        else self.m_allocation_stats.m_peak_size
      let total_size := (total_size0 + size) % 2 ^ w
      let num_of_allocations := (self.m_allocation_stats.m_num_of_allocations + 1) % 2 ^ w
      match usedSpace total_size self.m_capacity with
      | Except.error e => Except.error e
      | Except.ok used_space =>
        Except.ok
          ({ m_capacity := self.m_capacity
             m_used_space := used_space
             m_allocation_stats :=
               { m_peak_size := peak_size, m_total_size := total_size,
                 m_num_of_allocations := num_of_allocations,
                 m_num_of_deallocations := self.m_allocation_stats.m_num_of_deallocations }
             m_allocation_policy := pool }, new_address)

/-- `Allocator::Reset`. -/
def Reset (self : Allocator P) : Except Fault (Allocator P) :=
  match P.Reset self.m_allocation_policy with
  | Except.error e => Except.error e
  | Except.ok pool =>
    Except.ok
      { m_capacity := self.m_capacity
        m_used_space := 0
        m_allocation_stats :=
          { m_peak_size := 0, m_total_size := 0,
            m_num_of_allocations := 0, m_num_of_deallocations := 0 }
        m_allocation_policy := pool }

/-- `Allocator::DestructObject<InType>(InType* address)`, whose body is
`DestructObject(address); this->Deallocate(address);`.  The first statement is an unqualified
call inside a member function: name lookup finds the member template
`Allocator::DestructObject` in class scope before it reaches the namespace, and a name found
as a class member is not looked up by argument-dependent lookup, so the call names this
member function itself (with `InType` deduced from `address`), not the free function of the
Memory Utilities.  The last argument bounds the depth of nested activations; `none` says that
the call has not returned within that depth. -/
def DestructObject (w : Nat) (self : Allocator P) (address : VoidPtr) :
    Nat → Option (Except Fault (Allocator P))
  | 0 => none
  | fuel + 1 =>
    match DestructObject w self address fuel with
    | none => none
    | some (Except.error e) => some (Except.error e)
    | some (Except.ok self1) => some (Deallocate w self1 address)

/-- `Allocator::DestructArray<InType>(InType* address, Size count)`, whose body is
`DestructArray(address, count); this->Deallocate(address);`.  As in `DestructObject`, the
unqualified call names this member function itself. -/
def DestructArray (w : Nat) (self : Allocator P) (address : VoidPtr) (count : Nat) :
    Nat → Option (Except Fault (Allocator P))
  | 0 => none
  | fuel + 1 =>
    match DestructArray w self address count fuel with
    | none => none
    | some (Except.error e) => some (Except.error e)
    | some (Except.ok self1) => some (Deallocate w self1 address)

/-- Running `Allocate(size, alignment)` for every request `(size, alignment)` of a list, in
order, on the same allocator; the returned addresses are dropped. -/
def allocateAll (w : Nat) (self : Allocator P) :
    List (Nat × Nat) → Except Fault (Allocator P)
  | [] => Except.ok self
  | (size, alignment) :: requests =>
    match Allocate w self size alignment with
    | Except.error e => Except.error e
    | Except.ok (self1, _) => allocateAll w self1 requests

end Allocator

/-! ## A host for running the scenarios -/

/-- A host heap used to run the scenarios of the specification on the heap policy: a bump
allocator whose bookkeeping is the first free address.  `_aligned_malloc` returns the next
multiple of `alignment`, `_aligned_realloc` allocates a fresh block and copies `size` bytes
into it, `_aligned_free` does nothing. -/
def bumpHost : Host where
  Heap := Nat
  aligned_malloc := fun next size alignment =>
    let address := (next + alignment - 1) / alignment * alignment
    (address + size, address)
  aligned_realloc := fun next m old size alignment =>
    let address := (next + alignment - 1) / alignment * alignment
    (address + size,
     fun a => if address ≤ a ∧ a < address + size then m (old + (a - address)) else m a,
     address)
  aligned_free := fun next _address => next

/-- The heap-backed allocator of the scenarios right after `Initialize(1048576)`: the bump
host starts handing out addresses at `4096`, memory is all zero. -/
def heapAllocator : Allocator (HeapAllocationPolicy bumpHost) :=
  { m_capacity := 1048576
    m_used_space := 0
    m_allocation_stats :=
      { m_peak_size := 0, m_total_size := 0,
        m_num_of_allocations := 0, m_num_of_deallocations := 0 }
    m_allocation_policy := { heap := (4096 : Nat), memory := fun _ => 0 } }

/-- An allocator over the null policy with the given capacity and statistics. -/
def nullAllocator (capacity : Nat) (stats : AllocationStats) : Allocator NoAllocationPolicy :=
  { m_capacity := capacity
    m_used_space := 0
    m_allocation_stats := stats
    m_allocation_policy := () }

/-- The allocator left by a validated `Allocate(size, alignment)` whose policy call left
`pool`, when no `Size` addition overflows. -/
def afterAllocate {P : Policy} (self : Allocator P) (size : Nat) (pool : P.Pool) :
    Allocator P :=
  { m_capacity := self.m_capacity
    m_used_space :=
      Allocator.percentage ((self.m_allocation_stats.m_total_size + size) / self.m_capacity)
    m_allocation_stats :=
      { m_peak_size := max self.m_allocation_stats.m_peak_size size
        m_total_size := self.m_allocation_stats.m_total_size + size
        m_num_of_allocations := self.m_allocation_stats.m_num_of_allocations + 1
        m_num_of_deallocations := self.m_allocation_stats.m_num_of_deallocations }
    m_allocation_policy := pool }

/-- The allocator left by `Initialize(capacity)` whose policy call left `pool`. -/
def afterInitialize {P : Policy} (capacity : Nat) (pool : P.Pool) : Allocator P :=
  { m_capacity := capacity
    m_used_space := 0
    m_allocation_stats :=
      { m_peak_size := 0, m_total_size := 0,
        m_num_of_allocations := 0, m_num_of_deallocations := 0 }
    m_allocation_policy := pool }

/-- The allocator states reachable from `Initialize(capacity)`, called on any prior
allocator, by calls of `Allocate`, `Callocate`, `Reallocate`, `Deallocate` and `Reset` that
return. -/
inductive Reachable {P : Policy} (w capacity : Nat) : Allocator P → Prop where
  | start (prior self : Allocator P) :
      Allocator.Initialize prior capacity = Except.ok self → Reachable w capacity self
  | allocate (self self1 : Allocator P) (size alignment : Nat) (address : VoidPtr) :
      Reachable w capacity self →
      Allocator.Allocate w self size alignment = Except.ok (self1, address) →
      Reachable w capacity self1
  | callocate (self self1 : Allocator P) (size value alignment : Nat) (address : VoidPtr) :
      Reachable w capacity self →
      Allocator.Callocate w self size value alignment = Except.ok (self1, address) →
      Reachable w capacity self1
  | reallocate (self self1 : Allocator P) (old : VoidPtr) (size alignment : Nat)
      (address : VoidPtr) :
      Reachable w capacity self →
      Allocator.Reallocate w self old size alignment = Except.ok (self1, address) →
      Reachable w capacity self1
  | deallocate (self self1 : Allocator P) (address : VoidPtr) :
      Reachable w capacity self →
      Allocator.Deallocate w self address = Except.ok self1 →
      Reachable w capacity self1
  | reset (self self1 : Allocator P) :
      Reachable w capacity self →
      Allocator.Reset self = Except.ok self1 →
      Reachable w capacity self1

/-- The allocator states reachable from `Initialize(capacity)` by calls of `Allocate`,
`Callocate`, `Reallocate`, `Deallocate` and `Reset` that return, together with the sum of the
sizes requested by these calls. -/
inductive ReachableWithin {P : Policy} (w capacity : Nat) : Nat → Allocator P → Prop where
  | start (prior self : Allocator P) :
      Allocator.Initialize prior capacity = Except.ok self →
      ReachableWithin w capacity 0 self
  | allocate (requested : Nat) (self self1 : Allocator P) (size alignment : Nat)
      (address : VoidPtr) :
      ReachableWithin w capacity requested self →
      Allocator.Allocate w self size alignment = Except.ok (self1, address) →
      ReachableWithin w capacity (requested + size) self1
  | callocate (requested : Nat) (self self1 : Allocator P) (size value alignment : Nat)
      (address : VoidPtr) :
      ReachableWithin w capacity requested self →
      Allocator.Callocate w self size value alignment = Except.ok (self1, address) →
      ReachableWithin w capacity (requested + size) self1
  | reallocate (requested : Nat) (self self1 : Allocator P) (old : VoidPtr)
      (size alignment : Nat) (address : VoidPtr) :
      ReachableWithin w capacity requested self →
      Allocator.Reallocate w self old size alignment = Except.ok (self1, address) →
      ReachableWithin w capacity (requested + size) self1
  | deallocate (requested : Nat) (self self1 : Allocator P) (address : VoidPtr) :
      ReachableWithin w capacity requested self →
      Allocator.Deallocate w self address = Except.ok self1 →
      ReachableWithin w capacity requested self1
  | reset (requested : Nat) (self self1 : Allocator P) :
      ReachableWithin w capacity requested self →
      Allocator.Reset self = Except.ok self1 →
      ReachableWithin w capacity requested self1

/-- A host that is out of memory: `_aligned_malloc` and `_aligned_realloc` return null. -/
def exhaustedHost : Host where
  Heap := Unit
  aligned_malloc := fun heap _size _alignment => (heap, nullptr)
  aligned_realloc := fun heap m _old _size _alignment => (heap, m, nullptr)
  aligned_free := fun heap _address => heap

/-- The heap-backed allocator over the exhausted host right after `Initialize(1048576)`. -/
def exhaustedAllocator : Allocator (HeapAllocationPolicy exhaustedHost) :=
  { m_capacity := 1048576
    m_used_space := 0
    m_allocation_stats :=
      { m_peak_size := 0, m_total_size := 0,
        m_num_of_allocations := 0, m_num_of_deallocations := 0 }
    m_allocation_policy := { heap := (), memory := fun _ => 0 } }

/-- A managed element type of 8 bytes for the scenarios: its constructor writes the byte 1
over the object, its destructor the byte 2, and its assignments copy the 8 bytes. -/
def managedType : ElementType :=
  { is_pod := false
    sizeof := 8
    defaultConstruct := fun m a => memset m a 1 8
    destruct := fun m a => memset m a 2 8
    copyAssign := fun m d s => memcpy m d s 8
    moveAssign := fun m d s => memcpy m d s 8 }

/-- What the accessors of an allocator show after a call that returned it with an address:
the capacity, the used space and the four statistics. -/
def telemetry {P : Policy} (r : Allocator P × VoidPtr) : Nat × Nat × AllocationStats :=
  (r.1.m_capacity, r.1.m_used_space, r.1.m_allocation_stats)

/-- A memory for the scenarios of the byte-level operations: the byte 7 at address 4096,
zero everywhere else. -/
def sampleMemory : Memory := fun a => if a = 4096 then 7 else 0

/-- The state of the lifecycle scenarios: the sample memory and no call made yet. -/
def sampleObjects : Objects := { memory := sampleMemory, calls := [] }

/-! ## Alignment validation -/

theorem and_pred_eq_zero_of_two_pow (k : Nat) : 2 ^ k &&& (2 ^ k - 1) = 0 := by
  rw [Nat.and_pow_two_sub_one_eq_mod]
  exact Nat.mod_self _

theorem testBit_log2_of_between (a b : Nat) (hlo : 2 ^ a.log2 ≤ b)
    (hhi : b < 2 ^ (a.log2 + 1)) : b.testBit a.log2 = true := by
  rw [Nat.testBit_to_div_mod]
  have hq : b / 2 ^ a.log2 = 1 := by
    apply Nat.div_eq_of_lt_le
    · simpa using hlo
    · simpa [Nat.pow_succ, Nat.mul_comm] using hhi
  simp [hq]

theorem two_pow_of_and_pred_eq_zero (a : Nat) (h1 : 1 ≤ a) (h : a &&& (a - 1) = 0) :
    ∃ k, a = 2 ^ k := by
  refine ⟨a.log2, ?_⟩
  have hne : a ≠ 0 := by omega
  have hlo : 2 ^ a.log2 ≤ a := Nat.log2_self_le hne
  have hhi : a < 2 ^ (a.log2 + 1) := Nat.lt_log2_self
  by_contra hneq
  have hb1 : a.testBit a.log2 = true := testBit_log2_of_between a a hlo hhi
  have hb2 : (a - 1).testBit a.log2 = true :=
    testBit_log2_of_between a (a - 1) (by omega) (by omega)
  have hb : (a &&& (a - 1)).testBit a.log2 = true := by
    rw [Nat.testBit_and, hb1, hb2]; rfl
  rw [h] at hb
  simp at hb

/-- The alignment test of the allocator accepts exactly the powers of two. -/
theorem badAlignment_eq_false_iff (alignment : Nat) :
    Allocator.badAlignment alignment = false ↔ ∃ k, alignment = 2 ^ k := by
  unfold Allocator.badAlignment
  constructor
  · intro h
    simp only [Bool.or_eq_false_iff, decide_eq_false_iff_not, bne_eq_false_iff_eq] at h
    exact two_pow_of_and_pred_eq_zero alignment (by omega) h.2
  · rintro ⟨k, rfl⟩
    have hpos : 0 < 2 ^ k := Nat.two_pow_pos k
    simp only [Bool.or_eq_false_iff, decide_eq_false_iff_not, bne_eq_false_iff_eq]
    exact ⟨by omega, and_pred_eq_zero_of_two_pow k⟩

theorem badAlignment_of_not_two_pow (alignment : Nat) (h : ¬ ∃ k, alignment = 2 ^ k) :
    Allocator.badAlignment alignment = true := by
  cases hb : Allocator.badAlignment alignment with
  | true => rfl
  | false => exact absurd ((badAlignment_eq_false_iff alignment).1 hb) h

/-- The recomputation of `m_used_space` returns when the capacity is positive. -/
theorem usedSpace_of_pos (total_size capacity : Nat) (h : 0 < capacity) :
    Allocator.usedSpace total_size capacity
      = Except.ok (Allocator.percentage (total_size / capacity)) := by
  unfold Allocator.usedSpace
  rw [if_neg (by omega)]

/-! ## Allocate: statistics of a validated request -/

/-- What `Allocate` does with a request that passes validation, on a positive capacity:
the policy is called once, and the statistics are updated in `Size` arithmetic. -/
theorem allocate_of_valid (w : Nat) (P : Policy) (self : Allocator P)
    (size alignment : Nat) (pool : P.Pool) (address : VoidPtr)
    (hsize : 0 < size) (halign : ∃ k, alignment = 2 ^ k)
    (hcap : 0 < self.m_capacity)
    (hpolicy : P.Allocate self.m_allocation_policy size alignment
      = Except.ok (pool, address)) :
    Allocator.Allocate w self size alignment
      = Except.ok
          ({ m_capacity := self.m_capacity
             m_used_space :=
               Allocator.percentage
                 ((self.m_allocation_stats.m_total_size + size) % 2 ^ w / self.m_capacity)
             m_allocation_stats :=
               { m_peak_size := max self.m_allocation_stats.m_peak_size size
                 m_total_size := (self.m_allocation_stats.m_total_size + size) % 2 ^ w
                 m_num_of_allocations :=
                   (self.m_allocation_stats.m_num_of_allocations + 1) % 2 ^ w
                 m_num_of_deallocations :=
                   self.m_allocation_stats.m_num_of_deallocations }
             m_allocation_policy := pool }, address) := by
  have hbad : Allocator.badAlignment alignment = false :=
    (badAlignment_eq_false_iff alignment).2 halign
  have hpeak : (if self.m_allocation_stats.m_peak_size < size then size
      else self.m_allocation_stats.m_peak_size)
      = max self.m_allocation_stats.m_peak_size size := by
    split <;> omega
  unfold Allocator.Allocate
  rw [if_neg (by omega), hbad]
  simp only [Bool.false_eq_true, if_false, hpolicy]
  rw [usedSpace_of_pos _ _ hcap, hpeak]

/-- C1, as stated, fails: on an allocator whose capacity is 0 a valid `Allocate(64, 16)` does
not return (the recomputation of `m_used_space` divides by zero), and on an allocator whose
allocation counter holds the largest `Size` the counter wraps around to 0 instead of growing
by one. -/
theorem C1_counterexample :
    Allocator.Allocate 64 (nullAllocator 0 ⟨0, 0, 0, 0⟩) 64 16
        = Except.error Fault.divisionByZero
      ∧ Allocator.Allocate 64 (nullAllocator 1048576 ⟨0, 0, 2 ^ 64 - 1, 0⟩) 64 16
        = Except.ok (⟨1048576, 0, ⟨64, 64, 0, 0⟩, ()⟩, nullptr) := by
  constructor <;> rfl

/-- C1 (amended): on an allocator with a positive capacity, for a size > 0 and an alignment
that is a power of two, when the policy's `Allocate` returns `(pool, address)` and neither
`total_size + size` nor `num_allocations + 1` overflows `Size`, `Allocator::Allocate` returns
the policy's address, stores the policy's pool, and leaves `peak_size = max(old peak_size,
size)`, `total_size = old total_size + size`, `num_allocations = old num_allocations + 1`,
with `num_deallocations` and `capacity` unchanged. -/
theorem C1_allocate_updates_statistics (w : Nat) (P : Policy) (self : Allocator P)
    (size alignment : Nat) (pool : P.Pool) (address : VoidPtr)
    (hsize : 0 < size) (halign : ∃ k, alignment = 2 ^ k)
    (hcap : 0 < self.m_capacity)
    (htotal : self.m_allocation_stats.m_total_size + size < 2 ^ w)
    (hcount : self.m_allocation_stats.m_num_of_allocations + 1 < 2 ^ w)
    (hpolicy : P.Allocate self.m_allocation_policy size alignment
      = Except.ok (pool, address)) :
    Allocator.Allocate w self size alignment
      = Except.ok
          ({ m_capacity := self.m_capacity
             m_used_space :=
               Allocator.percentage
                 ((self.m_allocation_stats.m_total_size + size) / self.m_capacity)
             m_allocation_stats :=
               { m_peak_size := max self.m_allocation_stats.m_peak_size size
                 m_total_size := self.m_allocation_stats.m_total_size + size
                 m_num_of_allocations := self.m_allocation_stats.m_num_of_allocations + 1
                 m_num_of_deallocations :=
                   self.m_allocation_stats.m_num_of_deallocations }
             m_allocation_policy := pool }, address) := by
  rw [allocate_of_valid w P self size alignment pool address hsize halign hcap hpolicy,
    Nat.mod_eq_of_lt htotal, Nat.mod_eq_of_lt hcount]

/-- C1 (amended), on the scenario of the specification: `Initialize(1048576)` on the
heap-backed allocator, then `Allocate(64, 16)`. -/
theorem C1_allocate_updates_statistics_witness :
    (0 < 64 ∧ (∃ k, 16 = 2 ^ k) ∧ 0 < heapAllocator.m_capacity)
      ∧ Allocator.Allocate 64 heapAllocator 64 16
        = Except.ok
            ({ m_capacity := 1048576
               m_used_space := Allocator.percentage ((0 + 64) / 1048576)
               m_allocation_stats :=
                 { m_peak_size := max 0 64, m_total_size := 0 + 64,
                   m_num_of_allocations := 0 + 1, m_num_of_deallocations := 0 }
               m_allocation_policy := { heap := (4160 : Nat), memory := fun _ => 0 } },
             4096) :=
  ⟨⟨by decide, ⟨4, by decide⟩, by decide⟩,
   C1_allocate_updates_statistics 64 (HeapAllocationPolicy bumpHost) heapAllocator 64 16
     { heap := (4160 : Nat), memory := fun _ => 0 } 4096
     (by decide) ⟨4, by decide⟩ (by decide) (by decide) (by decide) rfl⟩

/-! ## Validation failures -/

/-- C2: for every allocator state, alignment and value, `Allocate(0, alignment)` and
`Callocate(0, value, alignment)` return null and leave the whole allocator, the pool of the
policy included, exactly as it was: the policy is not called and capacity, used_space and
the four statistics are unchanged. -/
theorem C2_zero_size_returns_null (w : Nat) (P : Policy) (self : Allocator P)
    (value alignment : Nat) :
    Allocator.Allocate w self 0 alignment = Except.ok (self, nullptr)
      ∧ Allocator.Callocate w self 0 value alignment = Except.ok (self, nullptr) := by
  constructor
  · unfold Allocator.Allocate
    rw [if_pos rfl]
  · unfold Allocator.Callocate
    rw [if_pos rfl]

/-- C3: for every allocator state, every size > 0 and every alignment that is not a power of
two (0 included), `Allocate`, `Callocate` and `Reallocate` return null and leave the whole
allocator, the pool of the policy included, exactly as it was: the policy is not called and
the statistics, used_space and capacity are unchanged. -/
theorem C3_bad_alignment_returns_null (w : Nat) (P : Policy) (self : Allocator P)
    (address : VoidPtr) (size value alignment : Nat)
    (hsize : 0 < size) (halign : ¬ ∃ k, alignment = 2 ^ k) :
    Allocator.Allocate w self size alignment = Except.ok (self, nullptr)
      ∧ Allocator.Callocate w self size value alignment = Except.ok (self, nullptr)
      ∧ Allocator.Reallocate w self address size alignment = Except.ok (self, nullptr) := by
  have hbad : Allocator.badAlignment alignment = true :=
    badAlignment_of_not_two_pow alignment halign
  have hne : ¬ size = 0 := by omega
  refine ⟨?_, ?_, ?_⟩
  · unfold Allocator.Allocate
    rw [if_neg hne, if_pos hbad]
  · unfold Allocator.Callocate
    rw [if_neg hne, if_pos hbad]
  · unfold Allocator.Reallocate
    rw [if_neg hne, if_pos hbad]

theorem two_pow_ne_six (k : Nat) : 6 ≠ 2 ^ k := by
  intro h
  have hk : k < 3 := by
    by_contra hge
    have : 2 ^ 3 ≤ 2 ^ k := Nat.pow_le_pow_right (by decide) (by omega)
    omega
  interval_cases k <;> omega

/-- C3 on the heap-backed allocator of the scenarios, with the alignment 6 and the address
4096. -/
theorem C3_bad_alignment_returns_null_witness :
    (0 < 64 ∧ ¬ ∃ k, 6 = 2 ^ k)
      ∧ Allocator.Allocate 64 heapAllocator 64 6 = Except.ok (heapAllocator, nullptr)
      ∧ Allocator.Callocate 64 heapAllocator 64 255 6 = Except.ok (heapAllocator, nullptr)
      ∧ Allocator.Reallocate 64 heapAllocator 4096 64 6
          = Except.ok (heapAllocator, nullptr) :=
  ⟨⟨by decide, fun ⟨k, hk⟩ => two_pow_ne_six k hk⟩,
   C3_bad_alignment_returns_null 64 (HeapAllocationPolicy bumpHost) heapAllocator 4096 64 255 6
     (by decide) (fun ⟨k, hk⟩ => two_pow_ne_six k hk)⟩

/-! ## Statistics after a sequence of allocations -/

theorem foldl_max_bounds (l : List Nat) :
    ∀ init : Nat, init ≤ l.foldl max init ∧ (∀ x ∈ l, x ≤ l.foldl max init)
      ∧ (l.foldl max init = init ∨ l.foldl max init ∈ l) := by
  induction l with
  | nil => intro init; simp
  | cons a t ih =>
    intro init
    obtain ⟨h1, h2, h3⟩ := ih (max init a)
    simp only [List.foldl_cons, List.mem_cons]
    refine ⟨by omega, ?_, ?_⟩
    · intro x hx
      rcases hx with rfl | hx
      · omega
      · exact h2 x hx
    · rcases h3 with h3 | h3
      · rw [h3]
        rcases Nat.le_total init a with hia | hia
        · right; left; omega
        · left; omega
      · right; right; exact h3

theorem length_le_sum_of_pos (l : List Nat) (h : ∀ x ∈ l, 0 < x) : l.length ≤ l.sum := by
  induction l with
  | nil => simp
  | cons a t ih =>
    have ha : 0 < a := h a (List.mem_cons_self a t)
    have ht : t.length ≤ t.sum := ih (fun x hx => h x (List.mem_cons_of_mem a hx))
    simp only [List.length_cons, List.sum_cons]
    omega

/-- The statistics after running a list of valid requests from any allocator with a positive
capacity, as long as the total and the counter stay within `Size`. -/
theorem allocateAll_statistics (w : Nat) (P : Policy)
    (hAlloc : ∀ pool size alignment, ∃ r, P.Allocate pool size alignment = Except.ok r)
    (requests : List (Nat × Nat)) :
    ∀ self : Allocator P, 0 < self.m_capacity →
      (∀ r ∈ requests, 0 < r.1 ∧ ∃ k, r.2 = 2 ^ k) →
      self.m_allocation_stats.m_total_size + (requests.map Prod.fst).sum < 2 ^ w →
      self.m_allocation_stats.m_num_of_allocations + requests.length < 2 ^ w →
      ∃ final, Allocator.allocateAll w self requests = Except.ok final
        ∧ final.m_capacity = self.m_capacity
        ∧ final.m_allocation_stats.m_total_size
            = self.m_allocation_stats.m_total_size + (requests.map Prod.fst).sum
        ∧ final.m_allocation_stats.m_num_of_allocations
            = self.m_allocation_stats.m_num_of_allocations + requests.length
        ∧ final.m_allocation_stats.m_peak_size
            = (requests.map Prod.fst).foldl max self.m_allocation_stats.m_peak_size := by
  induction requests with
  | nil =>
    intro self _ _ _ _
    exact ⟨self, rfl, rfl, by simp, by simp, by simp⟩
  | cons r rest ih =>
    intro self hcap hvalid htotal hcount
    obtain ⟨size, alignment⟩ := r
    obtain ⟨hsize, halign⟩ := hvalid (size, alignment) (List.mem_cons_self _ _)
    obtain ⟨⟨pool, address⟩, hpolicy⟩ := hAlloc self.m_allocation_policy size alignment
    simp only [List.map_cons, List.sum_cons, List.length_cons] at htotal hcount
    have hstep := allocate_of_valid w P self size alignment pool address hsize halign hcap
      hpolicy
    rw [Nat.mod_eq_of_lt (by omega), Nat.mod_eq_of_lt (by omega)] at hstep
    have hcap1 : 0 < (afterAllocate self size pool).m_capacity := hcap
    have htotal1 : (afterAllocate self size pool).m_allocation_stats.m_total_size
        + (rest.map Prod.fst).sum < 2 ^ w := by
      show self.m_allocation_stats.m_total_size + size + (rest.map Prod.fst).sum < 2 ^ w
      omega
    have hcount1 : (afterAllocate self size pool).m_allocation_stats.m_num_of_allocations
        + rest.length < 2 ^ w := by
      show self.m_allocation_stats.m_num_of_allocations + 1 + rest.length < 2 ^ w
      omega
    obtain ⟨final, hrun, hc, ht, hn, hp⟩ := ih (afterAllocate self size pool) hcap1
      (fun r hr => hvalid r (List.mem_cons_of_mem _ hr)) htotal1 hcount1
    refine ⟨final, ?_, ?_, ?_, ?_, ?_⟩
    · simp only [Allocator.allocateAll, hstep]
      exact hrun
    · exact hc
    · rw [ht]
      show self.m_allocation_stats.m_total_size + size + (rest.map Prod.fst).sum
        = self.m_allocation_stats.m_total_size + (size + (rest.map Prod.fst).sum)
      omega
    · rw [hn]
      show self.m_allocation_stats.m_num_of_allocations + 1 + rest.length
        = self.m_allocation_stats.m_num_of_allocations + (rest.length + 1)
      omega
    · rw [hp]
      rfl

/-- C4: for every capacity > 0 and every non-empty list of valid requests (each size > 0,
each alignment a power of two, the sizes summing to less than the `Size` range), over a
policy whose `Initialize` and `Allocate` return, `Initialize(capacity)` followed by the
`Allocate(si, ai)` in order returns and then `GetNumOfAllocations() == n`,
`GetTotalSize() == s1 + ... + sn` and `GetPeakSize() == max(s1..sn)` (it is one of the sizes
and no size exceeds it). -/
theorem C4_statistics_after_allocations (w : Nat) (P : Policy) (self : Allocator P)
    (capacity : Nat) (requests : List (Nat × Nat))
    (hcap : 0 < capacity) (hne : requests ≠ [])
    (hvalid : ∀ r ∈ requests, 0 < r.1 ∧ ∃ k, r.2 = 2 ^ k)
    (hsum : (requests.map Prod.fst).sum < 2 ^ w)
    (hInit : ∀ pool c, ∃ q, P.Initialize pool c = Except.ok q)
    (hAlloc : ∀ pool size alignment, ∃ r, P.Allocate pool size alignment = Except.ok r) :
    ∃ initial final, Allocator.Initialize self capacity = Except.ok initial
      ∧ Allocator.allocateAll w initial requests = Except.ok final
      ∧ final.GetNumOfAllocations = requests.length
      ∧ final.GetTotalSize = (requests.map Prod.fst).sum
      ∧ final.GetPeakSize ∈ requests.map Prod.fst
      ∧ ∀ size ∈ requests.map Prod.fst, size ≤ final.GetPeakSize := by
  obtain ⟨pool, hpool⟩ := hInit self.m_allocation_policy capacity
  have hinit : Allocator.Initialize self capacity = Except.ok (afterInitialize capacity pool) := by
    simp only [Allocator.Initialize, hpool, afterInitialize]
  have hpos : ∀ x ∈ requests.map Prod.fst, 0 < x := by
    intro x hx
    obtain ⟨r, hr, rfl⟩ := List.mem_map.1 hx
    exact (hvalid r hr).1
  have hlen : requests.length ≤ (requests.map Prod.fst).sum := by
    simpa using length_le_sum_of_pos (requests.map Prod.fst) hpos
  have htotal0 : (afterInitialize (P := P) capacity pool).m_allocation_stats.m_total_size
      + (requests.map Prod.fst).sum < 2 ^ w := by
    show 0 + (requests.map Prod.fst).sum < 2 ^ w
    omega
  have hcount0 : (afterInitialize (P := P) capacity pool).m_allocation_stats.m_num_of_allocations
      + requests.length < 2 ^ w := by
    show 0 + requests.length < 2 ^ w
    omega
  obtain ⟨final, hrun, _, ht, hn, hp⟩ := allocateAll_statistics w P hAlloc requests
    (afterInitialize capacity pool) hcap hvalid htotal0 hcount0
  have ht1 : final.m_allocation_stats.m_total_size = (requests.map Prod.fst).sum := by
    rw [ht]; show 0 + (requests.map Prod.fst).sum = _; omega
  have hn1 : final.m_allocation_stats.m_num_of_allocations = requests.length := by
    rw [hn]; show 0 + requests.length = _; omega
  have hp1 : final.m_allocation_stats.m_peak_size = (requests.map Prod.fst).foldl max 0 := hp
  obtain ⟨_, hall, hmem⟩ := foldl_max_bounds (requests.map Prod.fst) 0
  refine ⟨_, final, hinit, hrun, hn1, ht1, ?_, ?_⟩
  · show final.m_allocation_stats.m_peak_size ∈ requests.map Prod.fst
    rw [hp1]
    rcases hmem with hzero | hmem
    · obtain ⟨r, rest⟩ : ∃ r rest, requests = r :: rest := List.exists_cons_of_ne_nil hne
      obtain ⟨rest, rfl⟩ := rest
      have h1 := hall r.1 (by simp)
      have h2 := hpos r.1 (by simp)
      omega
    · exact hmem
  · intro size hsize
    show size ≤ final.m_allocation_stats.m_peak_size
    rw [hp1]
    exact hall size hsize

/-- C4 on the heap-backed allocator of the scenarios: `Initialize(1048576)`, then
`Allocate(64, 16)`, `Allocate(128, 8)` and `Allocate(32, 4)`. -/
theorem C4_statistics_after_allocations_witness :
    (0 < 1048576 ∧ [(64, 16), (128, 8), (32, 4)] ≠ ([] : List (Nat × Nat))
        ∧ ([(64, 16), (128, 8), (32, 4)].map Prod.fst).sum < 2 ^ 64)
      ∧ ∃ initial final, Allocator.Initialize heapAllocator 1048576 = Except.ok initial
        ∧ Allocator.allocateAll 64 initial [(64, 16), (128, 8), (32, 4)] = Except.ok final
        ∧ final.GetNumOfAllocations = [(64, 16), (128, 8), (32, 4)].length
        ∧ final.GetTotalSize = ([(64, 16), (128, 8), (32, 4)].map Prod.fst).sum
        ∧ final.GetPeakSize ∈ [(64, 16), (128, 8), (32, 4)].map Prod.fst
        ∧ ∀ size ∈ [(64, 16), (128, 8), (32, 4)].map Prod.fst, size ≤ final.GetPeakSize :=
  ⟨⟨by decide, by decide, by decide⟩,
   C4_statistics_after_allocations 64 (HeapAllocationPolicy bumpHost) heapAllocator 1048576
     [(64, 16), (128, 8), (32, 4)] (by decide) (by decide)
     (by
       intro r hr
       simp only [List.mem_cons, List.mem_singleton, List.not_mem_nil, or_false] at hr
       rcases hr with rfl | rfl | rfl
       · exact ⟨by decide, 4, by decide⟩
       · exact ⟨by decide, 3, by decide⟩
       · exact ⟨by decide, 2, by decide⟩)
     (by decide) (fun pool _ => ⟨pool, rfl⟩) (fun _ _ _ => ⟨_, rfl⟩)⟩

/-! ## The null policy -/

/-- C5, as stated, fails: on an allocator over the null policy whose capacity is 0, valid
`Allocate`, `Callocate` and `Reallocate` requests, and the zero-size `Reallocate`, do not
return at all (the recomputation of `m_used_space` divides by zero). -/
theorem C5_counterexample :
    Allocator.Allocate 64 (nullAllocator 0 ⟨0, 0, 0, 0⟩) 1 1
        = Except.error Fault.divisionByZero
      ∧ Allocator.Callocate 64 (nullAllocator 0 ⟨0, 0, 0, 0⟩) 1 0 1
        = Except.error Fault.divisionByZero
      ∧ Allocator.Reallocate 64 (nullAllocator 0 ⟨0, 0, 0, 0⟩) 4096 1 1
        = Except.error Fault.divisionByZero
      ∧ Allocator.Reallocate 64 (nullAllocator 0 ⟨0, 0, 0, 0⟩) 4096 0 1
        = Except.error Fault.divisionByZero := by
  refine ⟨?_, ?_, ?_, ?_⟩ <;> rfl

/-- C5 (amended): for an allocator over `NoAllocationPolicy` with a positive capacity, for
every size, value, address and alignment, `Allocate(size, alignment)`,
`Callocate(size, value, alignment)` and `Reallocate(address, size, alignment)` all return
null. -/
theorem C5_null_policy_returns_null (w : Nat) (self : Allocator NoAllocationPolicy)
    (address : VoidPtr) (size value alignment : Nat) (hcap : 0 < self.m_capacity) :
    (∃ self1, Allocator.Allocate w self size alignment = Except.ok (self1, nullptr))
      ∧ (∃ self1, Allocator.Callocate w self size value alignment
          = Except.ok (self1, nullptr))
      ∧ (∃ self1, Allocator.Reallocate w self address size alignment
          = Except.ok (self1, nullptr)) := by
  refine ⟨?_, ?_, ?_⟩
  · unfold Allocator.Allocate
    by_cases hsize : size = 0
    · exact ⟨self, by rw [if_pos hsize]⟩
    · cases hbad : Allocator.badAlignment alignment with
      | true => exact ⟨self, by rw [if_neg hsize, if_pos rfl]⟩
      | false =>
        rw [if_neg hsize]
        simp only [Bool.false_eq_true, if_false, NoAllocationPolicy,
          usedSpace_of_pos _ _ hcap]
        exact ⟨_, rfl⟩
  · unfold Allocator.Callocate
    by_cases hsize : size = 0
    · exact ⟨self, by rw [if_pos hsize]⟩
    · cases hbad : Allocator.badAlignment alignment with
      | true => exact ⟨self, by rw [if_neg hsize, if_pos rfl]⟩
      | false =>
        rw [if_neg hsize]
        simp only [Bool.false_eq_true, if_false, NoAllocationPolicy,
          usedSpace_of_pos _ _ hcap]
        exact ⟨_, rfl⟩
  · unfold Allocator.Reallocate
    by_cases hsize : size = 0
    · rw [if_pos hsize]
      simp only [Allocator.Deallocate, NoAllocationPolicy, usedSpace_of_pos _ _ hcap]
      exact ⟨_, rfl⟩
    · cases hbad : Allocator.badAlignment alignment with
      | true => exact ⟨self, by rw [if_neg hsize, if_pos rfl]⟩
      | false =>
        rw [if_neg hsize]
        simp only [Bool.false_eq_true, if_false, NoAllocationPolicy,
          usedSpace_of_pos _ _ hcap]
        exact ⟨_, rfl⟩

/-- C5 (amended) on the null-policy allocator right after `Initialize(1048576)`, with the
request `(64, 16)`, the value 255 and the address 4096. -/
theorem C5_null_policy_returns_null_witness :
    0 < (nullAllocator 1048576 ⟨0, 0, 0, 0⟩).m_capacity
      ∧ (∃ self1, Allocator.Allocate 64 (nullAllocator 1048576 ⟨0, 0, 0, 0⟩) 64 16
          = Except.ok (self1, nullptr))
      ∧ (∃ self1, Allocator.Callocate 64 (nullAllocator 1048576 ⟨0, 0, 0, 0⟩) 64 255 16
          = Except.ok (self1, nullptr))
      ∧ (∃ self1, Allocator.Reallocate 64 (nullAllocator 1048576 ⟨0, 0, 0, 0⟩) 4096 64 16
          = Except.ok (self1, nullptr)) :=
  ⟨by decide,
   C5_null_policy_returns_null 64 (nullAllocator 1048576 ⟨0, 0, 0, 0⟩) 4096 64 255 16
     (by decide)⟩

/-! ## Requests the policy does not grant -/

/-- C6 at its failing input: on the null-policy allocator right after `Initialize(64)`, where
every statistic and `used_space` are 0, the policy grants nothing and `Allocate(64, 16)`
returns null, yet the call leaves `peak_size` and `total_size` at 64, `num_allocations`
at 1 and `used_space` at 100, while `num_deallocations` and the capacity stay as they
were. -/
theorem C6_failed_allocation_is_counted :
    Allocator.Initialize (nullAllocator 0 ⟨0, 0, 0, 0⟩) 64
        = Except.ok (nullAllocator 64 ⟨0, 0, 0, 0⟩)
      ∧ NoAllocationPolicy.Allocate () 64 16 = Except.ok ((), nullptr)
      ∧ Allocator.Allocate 64 (nullAllocator 64 ⟨0, 0, 0, 0⟩) 64 16
        = Except.ok
            ({ m_capacity := 64
               m_used_space := 100
               m_allocation_stats :=
                 { m_peak_size := 64, m_total_size := 64,
                   m_num_of_allocations := 1, m_num_of_deallocations := 0 }
               m_allocation_policy := () }, nullptr) := by
  refine ⟨?_, ?_, ?_⟩ <;> rfl

/-! ## The size attributed to an address -/

/-- C7 at its failing input: on the heap-backed allocator right after `Initialize(1048576)`,
`Allocate(64, 16)` returns the non-null address 4096, and `GetAllocatedSize(4096)` on the
resulting allocator is 0, not 64. -/
theorem C7_allocated_size_is_zero :
    (Allocator.Allocate 64 heapAllocator 64 16).map
        (fun r => (r.2, r.1.GetAllocatedSize r.2))
      = Except.ok (4096, 0) := by
  rfl

/-- C8 at its failing input: on the heap-backed allocator right after `Initialize(1048576)`,
where `total_size` is 0, `Allocate(64, 16)` returns the address 4096 and after
`Deallocate(4096)` the total size is 64, with one deallocation counted. -/
theorem C8_total_size_after_deallocate :
    heapAllocator.GetTotalSize = 0
      ∧ (Allocator.Allocate 64 heapAllocator 64 16).map (fun r => r.2) = Except.ok 4096
      ∧ ((Allocator.Allocate 64 heapAllocator 64 16).bind
            (fun r => Allocator.Deallocate 64 r.1 r.2)).map
          (fun self1 => (self1.GetTotalSize, self1.GetNumOfDeallocations))
        = Except.ok (64, 1) := by
  refine ⟨?_, ?_, ?_⟩ <;> rfl

/-- C9 at its failing input: on the heap-backed allocator right after `Initialize(1048576)`,
`Allocate(64, 16)` returns the address 4096 and leaves the total size 64;
`Reallocate(4096, 128, 16)` then returns the non-null address 4160 and leaves the total
size 192, not 64 - 64 + 128 = 128. -/
theorem C9_total_size_after_reallocate :
    (Allocator.Allocate 64 heapAllocator 64 16).map (fun r => (r.2, r.1.GetTotalSize))
        = Except.ok (4096, 64)
      ∧ ((Allocator.Allocate 64 heapAllocator 64 16).bind
            (fun r => Allocator.Reallocate 64 r.1 r.2 128 16)).map
          (fun r => (r.2, r.1.GetTotalSize))
        = Except.ok (4160, 192) := by
  constructor <;> rfl

/-! ## Reallocate with size zero -/

/-- `Allocate` that returns keeps the capacity and the deallocation counter. -/
theorem allocate_frame {P : Policy} (w : Nat) (self self1 : Allocator P)
    (size alignment : Nat) (address : VoidPtr)
    (h : Allocator.Allocate w self size alignment = Except.ok (self1, address)) :
    self1.m_capacity = self.m_capacity
      ∧ self1.m_allocation_stats.m_num_of_deallocations
          = self.m_allocation_stats.m_num_of_deallocations := by
  unfold Allocator.Allocate Allocator.usedSpace at h
  repeat' split at h
  all_goals first | (cases h; exact ⟨rfl, rfl⟩) | cases h

/-- `Callocate` that returns keeps the capacity and the deallocation counter. -/
theorem callocate_frame {P : Policy} (w : Nat) (self self1 : Allocator P)
    (size value alignment : Nat) (address : VoidPtr)
    (h : Allocator.Callocate w self size value alignment = Except.ok (self1, address)) :
    self1.m_capacity = self.m_capacity
      ∧ self1.m_allocation_stats.m_num_of_deallocations
          = self.m_allocation_stats.m_num_of_deallocations := by
  unfold Allocator.Callocate Allocator.usedSpace at h
  repeat' split at h
  all_goals first | (cases h; exact ⟨rfl, rfl⟩) | cases h

/-- `Deallocate` that returns keeps the capacity, the peak and the allocation counter. -/
theorem deallocate_frame {P : Policy} (w : Nat) (self self1 : Allocator P)
    (address : VoidPtr) (h : Allocator.Deallocate w self address = Except.ok self1) :
    self1.m_capacity = self.m_capacity
      ∧ self1.m_allocation_stats.m_peak_size = self.m_allocation_stats.m_peak_size
      ∧ self1.m_allocation_stats.m_num_of_allocations
          = self.m_allocation_stats.m_num_of_allocations := by
  unfold Allocator.Deallocate Allocator.usedSpace at h
  repeat' split at h
  all_goals first | (cases h; exact ⟨rfl, rfl, rfl⟩) | cases h

/-- `Reallocate` that returns keeps the capacity and, for a size > 0, the deallocation
counter. -/
theorem reallocate_frame {P : Policy} (w : Nat) (self self1 : Allocator P)
    (old : VoidPtr) (size alignment : Nat) (address : VoidPtr)
    (h : Allocator.Reallocate w self old size alignment = Except.ok (self1, address)) :
    self1.m_capacity = self.m_capacity
      ∧ (0 < size → self1.m_allocation_stats.m_num_of_deallocations
          = self.m_allocation_stats.m_num_of_deallocations) := by
  unfold Allocator.Reallocate at h
  by_cases hzero : size = 0
  · rw [if_pos hzero] at h
    cases hd : Allocator.Deallocate w self old with
    | error e => rw [hd] at h; cases h
    | ok self2 =>
      rw [hd] at h
      cases h
      exact ⟨(deallocate_frame w self self1 old hd).1, fun hpos => by omega⟩
  · rw [if_neg hzero] at h
    unfold Allocator.usedSpace at h
    repeat' split at h
    all_goals first | (cases h; exact ⟨rfl, fun _ => rfl⟩) | cases h

/-- What `Deallocate` does on a positive capacity when the policy call returns. -/
theorem deallocate_of_pos {P : Policy} (w : Nat) (self : Allocator P) (address : VoidPtr)
    (pool : P.Pool) (hcap : 0 < self.m_capacity)
    (hpolicy : P.Deallocate self.m_allocation_policy address = Except.ok pool) :
    Allocator.Deallocate w self address
      = Except.ok
          { m_capacity := self.m_capacity
            m_used_space :=
              Allocator.percentage
                (Allocator.sizeSub w self.m_allocation_stats.m_total_size 0
                  / self.m_capacity)
            m_allocation_stats :=
              { m_peak_size := self.m_allocation_stats.m_peak_size
                m_total_size := Allocator.sizeSub w self.m_allocation_stats.m_total_size 0
                m_num_of_allocations := self.m_allocation_stats.m_num_of_allocations
                m_num_of_deallocations :=
                  (self.m_allocation_stats.m_num_of_deallocations + 1) % 2 ^ w }
            m_allocation_policy := pool } := by
  unfold Allocator.Deallocate
  simp only [hpolicy, Allocator.GetAllocatedSize, usedSpace_of_pos _ _ hcap]

/-! ## The deallocation counter -/

/-- C11, as stated, fails: on an allocator whose capacity is 0, `Deallocate(4096)` and
`Reallocate(4096, 0, 4)` do not return (the recomputation of `m_used_space` divides by zero),
so they do not increase the counter; and on an allocator whose deallocation counter holds
the largest `Size`, `Deallocate` wraps the counter around to 0. -/
theorem C11_counterexample :
    Allocator.Deallocate 64 (nullAllocator 0 ⟨0, 0, 0, 0⟩) 4096
        = Except.error Fault.divisionByZero
      ∧ Allocator.Reallocate 64 (nullAllocator 0 ⟨0, 0, 0, 0⟩) 4096 0 4
        = Except.error Fault.divisionByZero
      ∧ (Allocator.Deallocate 64 (nullAllocator 64 ⟨0, 0, 0, 2 ^ 64 - 1⟩) 4096).map
          (fun self1 => self1.GetNumOfDeallocations) = Except.ok 0 := by
  refine ⟨?_, ?_, ?_⟩ <;> rfl

/-- C11 (amended): for every allocator state and every argument: when the capacity is
positive, the policy's `Deallocate` returns and the counter does not overflow `Size`,
`Deallocate(address)` and `Reallocate(address, 0, alignment)` return and each leaves
`num_deallocations` increased by exactly 1, with `peak_size`, `num_allocations` and
`capacity` unchanged; and an `Allocate`, a `Callocate` or a `Reallocate` with size > 0 that
returns leaves `num_deallocations` unchanged. -/
theorem C11_deallocation_counter (w : Nat) (P : Policy) (self : Allocator P)
    (address : VoidPtr) (size value alignment : Nat) :
    (∀ pool : P.Pool, 0 < self.m_capacity →
        P.Deallocate self.m_allocation_policy address = Except.ok pool →
        self.m_allocation_stats.m_num_of_deallocations + 1 < 2 ^ w →
        ∃ self1, Allocator.Deallocate w self address = Except.ok self1
          ∧ Allocator.Reallocate w self address 0 alignment = Except.ok (self1, nullptr)
          ∧ self1.GetNumOfDeallocations = self.GetNumOfDeallocations + 1
          ∧ self1.GetPeakSize = self.GetPeakSize
          ∧ self1.GetNumOfAllocations = self.GetNumOfAllocations
          ∧ self1.GetCapacity = self.GetCapacity)
      ∧ (∀ (self1 : Allocator P) (a : VoidPtr),
          Allocator.Allocate w self size alignment = Except.ok (self1, a) →
          self1.GetNumOfDeallocations = self.GetNumOfDeallocations)
      ∧ (∀ (self1 : Allocator P) (a : VoidPtr),
          Allocator.Callocate w self size value alignment = Except.ok (self1, a) →
          self1.GetNumOfDeallocations = self.GetNumOfDeallocations)
      ∧ (∀ (self1 : Allocator P) (a : VoidPtr), 0 < size →
          Allocator.Reallocate w self address size alignment = Except.ok (self1, a) →
          self1.GetNumOfDeallocations = self.GetNumOfDeallocations) := by
  refine ⟨?_, ?_, ?_, ?_⟩
  · intro pool hcap hpolicy hcount
    have hd := deallocate_of_pos w self address pool hcap hpolicy
    refine ⟨_, hd, ?_, ?_, rfl, rfl, rfl⟩
    · unfold Allocator.Reallocate
      rw [if_pos rfl, hd]
    · show (self.m_allocation_stats.m_num_of_deallocations + 1) % 2 ^ w
        = self.m_allocation_stats.m_num_of_deallocations + 1
      exact Nat.mod_eq_of_lt hcount
  · intro self1 a h
    exact (allocate_frame w self self1 size alignment a h).2
  · intro self1 a h
    exact (callocate_frame w self self1 size value alignment a h).2
  · intro self1 a hpos h
    exact (reallocate_frame w self self1 address size alignment a h).2 hpos

/-- C11 (amended) on the heap-backed allocator of the scenarios, with the address 4096 and
the alignment 16. -/
theorem C11_deallocation_counter_witness :
    (0 < heapAllocator.m_capacity
        ∧ heapAllocator.m_allocation_stats.m_num_of_deallocations + 1 < 2 ^ 64)
      ∧ (∃ self1, Allocator.Deallocate 64 heapAllocator 4096 = Except.ok self1
          ∧ Allocator.Reallocate 64 heapAllocator 4096 0 16 = Except.ok (self1, nullptr)
          ∧ self1.GetNumOfDeallocations = heapAllocator.GetNumOfDeallocations + 1
          ∧ self1.GetPeakSize = heapAllocator.GetPeakSize
          ∧ self1.GetNumOfAllocations = heapAllocator.GetNumOfAllocations
          ∧ self1.GetCapacity = heapAllocator.GetCapacity) :=
  ⟨⟨by decide, by decide⟩,
   (C11_deallocation_counter 64 (HeapAllocationPolicy bumpHost) heapAllocator 4096 64 255
     16).1 { heap := (4096 : Nat), memory := fun _ => 0 } (by decide) rfl (by decide)⟩

/-! ## Callocate against Allocate -/

/-- What `Callocate` does with a request that passes validation, on a positive capacity:
the policy is called once, and the statistics are updated in `Size` arithmetic. -/
theorem callocate_of_valid (w : Nat) (P : Policy) (self : Allocator P)
    (size value alignment : Nat) (pool : P.Pool) (address : VoidPtr)
    (hsize : 0 < size) (halign : ∃ k, alignment = 2 ^ k)
    (hcap : 0 < self.m_capacity)
    (hpolicy : P.Callocate self.m_allocation_policy size value alignment
      = Except.ok (pool, address)) :
    Allocator.Callocate w self size value alignment
      = Except.ok
          ({ m_capacity := self.m_capacity
             m_used_space :=
               Allocator.percentage
                 ((self.m_allocation_stats.m_total_size + size) % 2 ^ w / self.m_capacity)
             m_allocation_stats :=
               { m_peak_size := max self.m_allocation_stats.m_peak_size size
                 m_total_size := (self.m_allocation_stats.m_total_size + size) % 2 ^ w
                 m_num_of_allocations :=
                   (self.m_allocation_stats.m_num_of_allocations + 1) % 2 ^ w
                 m_num_of_deallocations :=
                   self.m_allocation_stats.m_num_of_deallocations }
             m_allocation_policy := pool }, address) := by
  have hbad : Allocator.badAlignment alignment = false :=
    (badAlignment_eq_false_iff alignment).2 halign
  have hpeak : (if self.m_allocation_stats.m_peak_size < size then size
      else self.m_allocation_stats.m_peak_size)
      = max self.m_allocation_stats.m_peak_size size := by
    split <;> omega
  unfold Allocator.Callocate
  rw [if_neg (by omega), hbad]
  simp only [Bool.false_eq_true, if_false, hpolicy]
  rw [usedSpace_of_pos _ _ hcap, hpeak]

/-- Whenever the two policy calls return, `Allocate` and `Callocate` have the same outcome as
far as the accessors can tell: the same telemetry, or the same failure. -/
theorem callocate_telemetry (w : Nat) (P : Policy) (self : Allocator P)
    (size value alignment : Nat) (pa pc : P.Pool) (a c : VoidPtr)
    (hpa : P.Allocate self.m_allocation_policy size alignment = Except.ok (pa, a))
    (hpc : P.Callocate self.m_allocation_policy size value alignment = Except.ok (pc, c)) :
    (Allocator.Callocate w self size value alignment).map telemetry
      = (Allocator.Allocate w self size alignment).map telemetry := by
  unfold Allocator.Callocate Allocator.Allocate
  by_cases hsize : size = 0
  · rw [if_pos hsize, if_pos hsize]
  · rw [if_neg hsize, if_neg hsize]
    cases hbad : Allocator.badAlignment alignment with
    | true => rw [if_pos rfl, if_pos rfl]
    | false =>
      simp only [Bool.false_eq_true, if_false, hpa, hpc]
      cases Allocator.usedSpace ((self.m_allocation_stats.m_total_size + size) % 2 ^ w)
        self.m_capacity <;> rfl

/-- C12, as stated, fails: on the null-policy allocator right after `Initialize(64)`, the
request `(64, 16)` passes the validation of `Allocate` (the size is not 0 and the alignment
test accepts 16), yet `Callocate(64, 0, 16)` returns null. -/
theorem C12_counterexample :
    ¬ (64 = 0) ∧ Allocator.badAlignment 16 = false
      ∧ Allocator.Callocate 64 (nullAllocator 64 ⟨0, 0, 0, 0⟩) 64 0 16
        = Except.ok
            ({ m_capacity := 64
               m_used_space := 100
               m_allocation_stats :=
                 { m_peak_size := 64, m_total_size := 64,
                   m_num_of_allocations := 1, m_num_of_deallocations := 0 }
               m_allocation_policy := () }, nullptr) := by
  refine ⟨by decide, ?_, ?_⟩ <;> rfl

/-- C12 (amended): `Callocate` has the same validation and statistics effect as `Allocate`.
For every allocator state, size, value and alignment: when the validation of
`Allocate(size, alignment)` fails (size 0, or an alignment that is not a power of two), both
calls return null and change nothing; on a valid request with a positive capacity,
whenever the policy's `Callocate` returns, `Callocate` returns the address of the policy's
`Callocate`, null or not, keeps the pool it left, and updates the statistics as `Allocate`
does (on capacity 0 it divides by zero, and when the policy raises it raises the same
error); and whenever the policy's `Allocate` and `Callocate` both return, the two calls end
alike with the same capacity, used_space, peak_size, total_size, num_allocations and
num_deallocations. -/
theorem C12_callocate_like_allocate (w : Nat) (P : Policy) (self : Allocator P)
    (size value alignment : Nat) :
    ((size = 0 ∨ ¬ ∃ k, alignment = 2 ^ k) →
        Allocator.Allocate w self size alignment = Except.ok (self, nullptr)
          ∧ Allocator.Callocate w self size value alignment = Except.ok (self, nullptr))
      ∧ (∀ (pc : P.Pool) (c : VoidPtr), 0 < size → (∃ k, alignment = 2 ^ k) →
          P.Callocate self.m_allocation_policy size value alignment = Except.ok (pc, c) →
          (0 < self.m_capacity →
              Allocator.Callocate w self size value alignment
                = Except.ok
                    ({ m_capacity := self.m_capacity
                       m_used_space :=
                         Allocator.percentage
                           ((self.m_allocation_stats.m_total_size + size) % 2 ^ w
                             / self.m_capacity)
                       m_allocation_stats :=
                         { m_peak_size := max self.m_allocation_stats.m_peak_size size
                           m_total_size :=
                             (self.m_allocation_stats.m_total_size + size) % 2 ^ w
                           m_num_of_allocations :=
                             (self.m_allocation_stats.m_num_of_allocations + 1) % 2 ^ w
                           m_num_of_deallocations :=
                             self.m_allocation_stats.m_num_of_deallocations }
                       m_allocation_policy := pc }, c))
            ∧ (self.m_capacity = 0 →
              Allocator.Callocate w self size value alignment
                = Except.error Fault.divisionByZero))
      ∧ (∀ e : Fault, 0 < size → (∃ k, alignment = 2 ^ k) →
          P.Callocate self.m_allocation_policy size value alignment = Except.error e →
          Allocator.Callocate w self size value alignment = Except.error e)
      ∧ (∀ (pa pc : P.Pool) (a c : VoidPtr),
          P.Allocate self.m_allocation_policy size alignment = Except.ok (pa, a) →
          P.Callocate self.m_allocation_policy size value alignment = Except.ok (pc, c) →
          (Allocator.Callocate w self size value alignment).map telemetry
              = (Allocator.Allocate w self size alignment).map telemetry
            ∧ (0 < size → (∃ k, alignment = 2 ^ k) → 0 < self.m_capacity →
                ∃ sa sc, Allocator.Allocate w self size alignment = Except.ok (sa, a)
                  ∧ Allocator.Callocate w self size value alignment = Except.ok (sc, c)
                  ∧ sc.GetCapacity = sa.GetCapacity
                  ∧ sc.GetUsedSpace = sa.GetUsedSpace
                  ∧ sc.GetPeakSize = sa.GetPeakSize
                  ∧ sc.GetTotalSize = sa.GetTotalSize
                  ∧ sc.GetNumOfAllocations = sa.GetNumOfAllocations
                  ∧ sc.GetNumOfDeallocations = sa.GetNumOfDeallocations)) := by
  refine ⟨?_, ?_, ?_, ?_⟩
  · intro hfail
    rcases hfail with hzero | hbad
    · subst hzero
      constructor
      · unfold Allocator.Allocate
        rw [if_pos rfl]
      · unfold Allocator.Callocate
        rw [if_pos rfl]
    · have hb : Allocator.badAlignment alignment = true :=
        badAlignment_of_not_two_pow alignment hbad
      by_cases hsize : size = 0
      · constructor
        · unfold Allocator.Allocate
          rw [if_pos hsize]
        · unfold Allocator.Callocate
          rw [if_pos hsize]
      · constructor
        · unfold Allocator.Allocate
          rw [if_neg hsize, if_pos hb]
        · unfold Allocator.Callocate
          rw [if_neg hsize, if_pos hb]
  · intro pc c hsize halign hpc
    refine ⟨fun hcap => callocate_of_valid w P self size value alignment pc c hsize halign
      hcap hpc, ?_⟩
    intro hzero
    have hbad : Allocator.badAlignment alignment = false :=
      (badAlignment_eq_false_iff alignment).2 halign
    unfold Allocator.Callocate
    rw [if_neg (by omega), hbad]
    simp only [Bool.false_eq_true, if_false, hpc, Allocator.usedSpace, hzero, if_true]
  · intro e hsize halign hpc
    have hbad : Allocator.badAlignment alignment = false :=
      (badAlignment_eq_false_iff alignment).2 halign
    unfold Allocator.Callocate
    rw [if_neg (by omega), hbad]
    simp only [Bool.false_eq_true, if_false, hpc]
  · intro pa pc a c hpa hpc
    refine ⟨callocate_telemetry w P self size value alignment pa pc a c hpa hpc, ?_⟩
    intro hsize halign hcap
    exact ⟨_, _, allocate_of_valid w P self size alignment pa a hsize halign hcap hpa,
      callocate_of_valid w P self size value alignment pc c hsize halign hcap hpc,
      rfl, rfl, rfl, rfl, rfl, rfl⟩

/-- C12 (amended) on the heap-backed allocator of the scenarios: the request `(64, 16)`
with the value 255, where both policy calls return the address 4096. -/
theorem C12_callocate_like_allocate_witness :
    (0 < 64 ∧ (∃ k, 16 = 2 ^ k) ∧ 0 < heapAllocator.m_capacity)
      ∧ ∃ sa sc, Allocator.Allocate 64 heapAllocator 64 16 = Except.ok (sa, 4096)
        ∧ Allocator.Callocate 64 heapAllocator 64 255 16 = Except.ok (sc, 4096)
        ∧ sc.GetCapacity = sa.GetCapacity
        ∧ sc.GetUsedSpace = sa.GetUsedSpace
        ∧ sc.GetPeakSize = sa.GetPeakSize
        ∧ sc.GetTotalSize = sa.GetTotalSize
        ∧ sc.GetNumOfAllocations = sa.GetNumOfAllocations
        ∧ sc.GetNumOfDeallocations = sa.GetNumOfDeallocations :=
  ⟨⟨by decide, ⟨4, by decide⟩, by decide⟩,
   ((C12_callocate_like_allocate 64 (HeapAllocationPolicy bumpHost) heapAllocator 64 255
      16).2.2.2
      { heap := (4160 : Nat), memory := fun _ => 0 }
      { heap := (4160 : Nat), memory := memset (fun _ => 0) 4096 255 64 }
      4096 4096 rfl rfl).2 (by decide) ⟨4, by decide⟩ (by decide)⟩

/-! ## Reset, Initialize and Deinitialize -/

/-- C13: from every allocator state, when the policy's `Reset` returns, `Reset()` returns and
leaves `peak_size`, `total_size`, `num_allocations`, `num_deallocations` and `used_space` all
equal to 0 and the capacity unchanged (the pool is the one the policy's `Reset` left).  The
state before may be any state, in particular one left by `Deallocate`. -/
theorem C13_reset_clears_statistics (P : Policy) (self : Allocator P) (pool : P.Pool)
    (hreset : P.Reset self.m_allocation_policy = Except.ok pool) :
    ∃ self1, Allocator.Reset self = Except.ok self1
      ∧ self1.GetPeakSize = 0 ∧ self1.GetTotalSize = 0
      ∧ self1.GetNumOfAllocations = 0 ∧ self1.GetNumOfDeallocations = 0
      ∧ self1.GetUsedSpace = 0
      ∧ self1.GetCapacity = self.GetCapacity
      ∧ self1.m_allocation_policy = pool := by
  refine ⟨{ m_capacity := self.m_capacity
            m_used_space := 0
            m_allocation_stats :=
              { m_peak_size := 0, m_total_size := 0,
                m_num_of_allocations := 0, m_num_of_deallocations := 0 }
            m_allocation_policy := pool }, ?_, rfl, rfl, rfl, rfl, rfl, rfl, rfl⟩
  unfold Allocator.Reset
  rw [hreset]

/-- C13 on the scenario of the specification: on the heap-backed allocator,
`Allocate(64, 16)`, then `Deallocate(4096)`, then `Reset()`. -/
theorem C13_reset_clears_statistics_witness :
    (Allocator.Allocate 64 heapAllocator 64 16).bind
        (fun r => Allocator.Deallocate 64 r.1 r.2)
      = Except.ok
          { m_capacity := 1048576
            m_used_space := 0
            m_allocation_stats :=
              { m_peak_size := 64, m_total_size := 64,
                m_num_of_allocations := 1, m_num_of_deallocations := 1 }
            m_allocation_policy := { heap := (4160 : Nat), memory := fun _ => 0 } }
      ∧ ∃ self1,
        Allocator.Reset (P := HeapAllocationPolicy bumpHost)
            { m_capacity := 1048576
              m_used_space := 0
              m_allocation_stats :=
                { m_peak_size := 64, m_total_size := 64,
                  m_num_of_allocations := 1, m_num_of_deallocations := 1 }
              m_allocation_policy := { heap := (4160 : Nat), memory := fun _ => 0 } }
          = Except.ok self1
        ∧ self1.GetPeakSize = 0 ∧ self1.GetTotalSize = 0
        ∧ self1.GetNumOfAllocations = 0 ∧ self1.GetNumOfDeallocations = 0
        ∧ self1.GetUsedSpace = 0
        ∧ self1.GetCapacity = 1048576
        ∧ self1.m_allocation_policy = { heap := (4160 : Nat), memory := fun _ => 0 } :=
  ⟨rfl,
   C13_reset_clears_statistics (HeapAllocationPolicy bumpHost)
     { m_capacity := 1048576
       m_used_space := 0
       m_allocation_stats :=
         { m_peak_size := 64, m_total_size := 64,
           m_num_of_allocations := 1, m_num_of_deallocations := 1 }
       m_allocation_policy := { heap := (4160 : Nat), memory := fun _ => 0 } }
     { heap := (4160 : Nat), memory := fun _ => 0 } rfl⟩

/-- C14: from every prior allocator state, when the policy's `Initialize` returns,
`Initialize(capacity)` returns with `GetCapacity() == capacity` and with `used_space` and the
four statistics equal to 0; and when the policy's `Deinitialize` returns, `Deinitialize()`
returns with `GetCapacity() == 0` and with `used_space` and the four statistics equal
to 0. -/
theorem C14_lifecycle_zeroes_statistics (P : Policy) (self : Allocator P) (capacity : Nat) :
    (∀ pool : P.Pool, P.Initialize self.m_allocation_policy capacity = Except.ok pool →
        ∃ self1, Allocator.Initialize self capacity = Except.ok self1
          ∧ self1.GetCapacity = capacity ∧ self1.GetUsedSpace = 0
          ∧ self1.GetPeakSize = 0 ∧ self1.GetTotalSize = 0
          ∧ self1.GetNumOfAllocations = 0 ∧ self1.GetNumOfDeallocations = 0)
      ∧ (∀ pool : P.Pool, P.Deinitialize self.m_allocation_policy = Except.ok pool →
        ∃ self2, Allocator.Deinitialize self = Except.ok self2
          ∧ self2.GetCapacity = 0 ∧ self2.GetUsedSpace = 0
          ∧ self2.GetPeakSize = 0 ∧ self2.GetTotalSize = 0
          ∧ self2.GetNumOfAllocations = 0 ∧ self2.GetNumOfDeallocations = 0) := by
  constructor
  · intro pool hinit
    refine ⟨afterInitialize capacity pool, ?_, rfl, rfl, rfl, rfl, rfl, rfl⟩
    unfold Allocator.Initialize afterInitialize
    rw [hinit]
  · intro pool hdeinit
    refine ⟨afterInitialize 0 pool, ?_, rfl, rfl, rfl, rfl, rfl, rfl⟩
    unfold Allocator.Deinitialize afterInitialize
    rw [hdeinit]

/-- C14 on a null-policy allocator that has served requests (capacity 64, statistics 64,
128, 2 and 1), with the new capacity 4096. -/
theorem C14_lifecycle_zeroes_statistics_witness :
    (∃ self1, Allocator.Initialize (nullAllocator 64 ⟨64, 128, 2, 1⟩) 4096 = Except.ok self1
        ∧ self1.GetCapacity = 4096 ∧ self1.GetUsedSpace = 0
        ∧ self1.GetPeakSize = 0 ∧ self1.GetTotalSize = 0
        ∧ self1.GetNumOfAllocations = 0 ∧ self1.GetNumOfDeallocations = 0)
      ∧ (∃ self2, Allocator.Deinitialize (nullAllocator 64 ⟨64, 128, 2, 1⟩) = Except.ok self2
        ∧ self2.GetCapacity = 0 ∧ self2.GetUsedSpace = 0
        ∧ self2.GetPeakSize = 0 ∧ self2.GetTotalSize = 0
        ∧ self2.GetNumOfAllocations = 0 ∧ self2.GetNumOfDeallocations = 0) :=
  ⟨(C14_lifecycle_zeroes_statistics NoAllocationPolicy (nullAllocator 64 ⟨64, 128, 2, 1⟩)
      4096).1 () rfl,
   (C14_lifecycle_zeroes_statistics NoAllocationPolicy (nullAllocator 64 ⟨64, 128, 2, 1⟩)
      4096).2 () rfl⟩

/-! ## The used space -/

/-- C15 at its failing inputs: on the heap-backed allocator, after `Initialize(200)` and
`Allocate(50, 4)` the total size is 50, the capacity 200 and the used space 0, not 25; and
after `Initialize(1048576)` and `Allocate(64, 16)` the total size is 64 and the used space
is 0, not a value greater than 0. -/
theorem C15_used_space_truncates_the_quotient :
    ((Allocator.Initialize heapAllocator 200).bind
          (fun self1 => Allocator.Allocate 64 self1 50 4)).map
        (fun r => (r.1.GetTotalSize, r.1.GetCapacity, r.1.GetUsedSpace))
        = Except.ok (50, 200, 0)
      ∧ ((Allocator.Initialize heapAllocator 1048576).bind
          (fun self1 => Allocator.Allocate 64 self1 64 16)).map
        (fun r => (r.1.GetTotalSize, r.1.GetCapacity, r.1.GetUsedSpace))
        = Except.ok (64, 1048576, 0) := by
  constructor <;> rfl

/-! ## The capacity of a reachable allocator -/

/-- C16, as stated, fails: `Initialize(0)` returns, the allocator it leaves is reachable
from `Initialize(0)`, its capacity is 0, and the next `Allocate(1, 1)` divides by zero when
it recomputes `m_used_space`. -/
theorem C16_counterexample :
    Allocator.Initialize (nullAllocator 64 ⟨64, 128, 2, 1⟩) 0
        = Except.ok (nullAllocator 0 ⟨0, 0, 0, 0⟩)
      ∧ Reachable 64 0 (nullAllocator 0 ⟨0, 0, 0, 0⟩)
      ∧ (nullAllocator 0 ⟨0, 0, 0, 0⟩).GetCapacity = 0
      ∧ Allocator.Allocate 64 (nullAllocator 0 ⟨0, 0, 0, 0⟩) 1 1
        = Except.error Fault.divisionByZero :=
  ⟨rfl, Reachable.start (nullAllocator 64 ⟨64, 128, 2, 1⟩) _ rfl, rfl, rfl⟩

/-- `Initialize` that returns leaves the capacity it was given. -/
theorem initialize_capacity {P : Policy} (prior self : Allocator P) (capacity : Nat)
    (h : Allocator.Initialize prior capacity = Except.ok self) :
    self.m_capacity = capacity := by
  unfold Allocator.Initialize at h
  split at h
  · cases h
  · cases h; rfl

/-- `Reset` that returns keeps the capacity. -/
theorem reset_capacity {P : Policy} (self self1 : Allocator P)
    (h : Allocator.Reset self = Except.ok self1) :
    self1.m_capacity = self.m_capacity := by
  unfold Allocator.Reset at h
  split at h
  · cases h
  · cases h; rfl

/-- The capacity of every allocator reachable from `Initialize(capacity)` is `capacity`. -/
theorem reachable_capacity {P : Policy} (w capacity : Nat) (self : Allocator P)
    (h : Reachable w capacity self) : self.m_capacity = capacity := by
  induction h with
  | start prior self hinit => exact initialize_capacity prior self capacity hinit
  | allocate self self1 size alignment address _ hcall ih =>
    rw [(allocate_frame w self self1 size alignment address hcall).1, ih]
  | callocate self self1 size value alignment address _ hcall ih =>
    rw [(callocate_frame w self self1 size value alignment address hcall).1, ih]
  | reallocate self self1 old size alignment address _ hcall ih =>
    rw [(reallocate_frame w self self1 old size alignment address hcall).1, ih]
  | deallocate self self1 address _ hcall ih =>
    rw [(deallocate_frame w self self1 address hcall).1, ih]
  | reset self self1 _ hcall ih =>
    rw [reset_capacity self self1 hcall, ih]

/-- C16 (amended): for every capacity argument greater than 0, in every state reachable from
`Initialize(capacity)` by `Allocate`, `Callocate`, `Reallocate`, `Deallocate` and `Reset`,
the capacity is the one given to `Initialize` and so is greater than 0, and the division
`total_size / capacity` performed when recomputing `used_space` has no zero divisor: the
recomputation returns for every total size. -/
theorem C16_capacity_stays_positive (w : Nat) (P : Policy) (capacity : Nat)
    (self : Allocator P) (hcap : 0 < capacity) (hreach : Reachable w capacity self) :
    self.GetCapacity = capacity ∧ 0 < self.GetCapacity
      ∧ ∀ total_size, Allocator.usedSpace total_size self.m_capacity
          = Except.ok (Allocator.percentage (total_size / self.m_capacity)) := by
  have hc : self.m_capacity = capacity := reachable_capacity w capacity self hreach
  refine ⟨hc, ?_, ?_⟩
  · show 0 < self.m_capacity
    omega
  · intro total_size
    exact usedSpace_of_pos total_size self.m_capacity (by omega)

/-- C16 (amended) on the heap-backed allocator of the scenarios after `Initialize(1048576)`
and `Allocate(64, 16)`. -/
theorem C16_capacity_stays_positive_witness :
    (0 < 1048576
        ∧ Reachable 64 1048576
            (afterAllocate heapAllocator 64 { heap := (4160 : Nat), memory := fun _ => 0 }))
      ∧ (afterAllocate heapAllocator 64
            { heap := (4160 : Nat), memory := fun _ => 0 }).GetCapacity = 1048576
      ∧ 0 < (afterAllocate heapAllocator 64
            { heap := (4160 : Nat), memory := fun _ => 0 }).GetCapacity
      ∧ ∀ total_size, Allocator.usedSpace total_size
            (afterAllocate heapAllocator 64
              { heap := (4160 : Nat), memory := fun _ => 0 }).m_capacity
          = Except.ok (Allocator.percentage (total_size
              / (afterAllocate heapAllocator 64
                  { heap := (4160 : Nat), memory := fun _ => 0 }).m_capacity)) :=
  ⟨⟨by decide,
    Reachable.allocate heapAllocator _ 64 16 4096
      (Reachable.start heapAllocator heapAllocator rfl) rfl⟩,
   C16_capacity_stays_positive 64 (HeapAllocationPolicy bumpHost) 1048576
     (afterAllocate heapAllocator 64 { heap := (4160 : Nat), memory := fun _ => 0 })
     (by decide)
     (Reachable.allocate heapAllocator _ 64 16 4096
       (Reachable.start heapAllocator heapAllocator rfl) rfl)⟩

/-! ## The byte-level operations -/

/-- `memcmp` is zero exactly when the two regions agree byte by byte. -/
theorem memcmp_eq_zero_iff (m : Memory) (size : Nat) :
    ∀ self other : Nat,
      memcmp m self other size = 0 ↔ ∀ i, i < size → m (self + i) = m (other + i) := by
  induction size with
  | zero =>
    intro self other
    simp [memcmp]
  | succ n ih =>
    intro self other
    unfold memcmp
    by_cases hfirst : m self = m other
    · rw [if_pos hfirst, ih]
      constructor
      · intro h i hi
        cases i with
        | zero => simpa using hfirst
        | succ j =>
          have hj := h j (by omega)
          rw [show self + (j + 1) = self + 1 + j by omega,
            show other + (j + 1) = other + 1 + j by omega]
          exact hj
      · intro h i hi
        have hj := h (i + 1) (by omega)
        rw [show self + 1 + i = self + (i + 1) by omega,
          show other + 1 + i = other + (i + 1) by omega]
        exact hj
    · rw [if_neg hfirst]
      constructor
      · intro h
        exfalso
        apply hfirst
        have hcast : (m self : Int) = (m other : Int) := by omega
        exact_mod_cast hcast
      · intro h
        exact absurd (by simpa using h 0 (by omega)) hfirst

/-- The bytes `memcpy` leaves in the destination. -/
theorem memcpy_destination (m : Memory) (destination source size i : Nat)
    (hi : i < size) :
    memcpy m destination source size (destination + i) = m (source + i) := by
  have hin : destination ≤ destination + i ∧ destination + i < destination + size :=
    ⟨by omega, by omega⟩
  unfold memcpy
  rw [if_pos hin, show destination + i - destination = i by omega]

/-- The bytes `memcpy` leaves outside the destination. -/
theorem memcpy_outside (m : Memory) (destination source size a : Nat)
    (ha : ¬ (destination ≤ a ∧ a < destination + size)) :
    memcpy m destination source size a = m a := by
  unfold memcpy
  rw [if_neg ha]

/-- C17, as stated, fails when the regions overlap.  In a memory whose byte at 4096 is 7,
`MemoryMove(4096, 4096, 1)` leaves 0, not 7, in the destination; and
`MemoryMove(4097, 4096, 2)` leaves 0, not 7, in the first byte of the destination. -/
theorem C17_counterexample :
    sampleMemory 4096 = 7
      ∧ (MemoryMove sampleMemory 4096 4096 1).map (fun m1 => m1 4096) = Except.ok 0
      ∧ (MemoryMove sampleMemory 4097 4096 2).map (fun m1 => m1 4097) = Except.ok 0 := by
  refine ⟨?_, ?_, ?_⟩ <;> rfl

/-- C17 (amended): for every memory state, every pair of non-null addresses `dst` and `src`
whose `n`-byte regions do not overlap, and every `n`, `MemoryMove(dst, src, n)` returns, the
`n` bytes at `dst` then equal the `n` bytes that were at `src` before the call, and the `n`
bytes at `src` are all zero. -/
theorem C17_memory_move (m : Memory) (dst src n : Nat)
    (hdst : dst ≠ nullptr) (hsrc : src ≠ nullptr)
    (hdisjoint : dst + n ≤ src ∨ src + n ≤ dst) :
    ∃ m1, MemoryMove m dst src n = Except.ok m1
      ∧ (∀ i, i < n → m1 (dst + i) = m (src + i))
      ∧ (∀ i, i < n → m1 (src + i) = 0) := by
  refine ⟨memset (memcpy m dst src n) src 0 n, ?_, ?_, ?_⟩
  · unfold MemoryMove
    rw [if_neg (by simp [hdst, hsrc])]
  · intro i hi
    have hout : ¬ (src ≤ dst + i ∧ dst + i < src + n) := by omega
    unfold memset
    rw [if_neg hout]
    exact memcpy_destination m dst src n i hi
  · intro i hi
    have hin : src ≤ src + i ∧ src + i < src + n := ⟨by omega, by omega⟩
    unfold memset
    rw [if_pos hin]

/-- C17 (amended) in the sample memory: `MemoryMove(8192, 4096, 4)`. -/
theorem C17_memory_move_witness :
    ((8192 : Nat) ≠ nullptr ∧ (4096 : Nat) ≠ nullptr ∧ (8192 + 4 ≤ 4096 ∨ 4096 + 4 ≤ 8192))
      ∧ ∃ m1, MemoryMove sampleMemory 8192 4096 4 = Except.ok m1
        ∧ (∀ i, i < 4 → m1 (8192 + i) = sampleMemory (4096 + i))
        ∧ (∀ i, i < 4 → m1 (4096 + i) = 0) :=
  ⟨⟨by decide, by decide, by decide⟩,
   C17_memory_move sampleMemory 8192 4096 4 (by decide) (by decide) (by decide)⟩

/-- C18: for every memory state, every pair of non-null addresses `dst` and `src` whose
`n`-byte regions do not overlap, and every `n`, `MemoryCopy(dst, src, n)` returns, after it
`MemoryCompare(dst, src, n)` returns true, the `n` bytes at `src` are unchanged, and no byte
outside `[dst, dst + n)` is modified. -/
theorem C18_memory_copy (m : Memory) (dst src n : Nat)
    (hdst : dst ≠ nullptr) (hsrc : src ≠ nullptr)
    (hdisjoint : dst + n ≤ src ∨ src + n ≤ dst) :
    ∃ m1, MemoryCopy m dst src n = Except.ok m1
      ∧ MemoryCompare m1 dst src n = Except.ok (m1, true)
      ∧ (∀ i, i < n → m1 (src + i) = m (src + i))
      ∧ (∀ a, ¬ (dst ≤ a ∧ a < dst + n) → m1 a = m a) := by
  have hsource : ∀ i, i < n → memcpy m dst src n (src + i) = m (src + i) := by
    intro i hi
    exact memcpy_outside m dst src n (src + i) (by omega)
  refine ⟨memcpy m dst src n, ?_, ?_, hsource, ?_⟩
  · unfold MemoryCopy
    rw [if_neg (by simp [hdst, hsrc])]
  · unfold MemoryCompare
    rw [if_neg (by simp [hdst, hsrc])]
    have hzero : memcmp (memcpy m dst src n) dst src n = 0 := by
      rw [memcmp_eq_zero_iff]
      intro i hi
      rw [memcpy_destination m dst src n i hi, hsource i hi]
    rw [hzero]
    rfl
  · intro a ha
    exact memcpy_outside m dst src n a ha

/-- C18 in the sample memory: `MemoryCopy(8192, 4096, 4)`. -/
theorem C18_memory_copy_witness :
    ((8192 : Nat) ≠ nullptr ∧ (4096 : Nat) ≠ nullptr ∧ (8192 + 4 ≤ 4096 ∨ 4096 + 4 ≤ 8192))
      ∧ ∃ m1, MemoryCopy sampleMemory 8192 4096 4 = Except.ok m1
        ∧ MemoryCompare m1 8192 4096 4 = Except.ok (m1, true)
        ∧ (∀ i, i < 4 → m1 (4096 + i) = sampleMemory (4096 + i))
        ∧ (∀ a, ¬ (8192 ≤ a ∧ a < 8192 + 4) → m1 a = sampleMemory a) :=
  ⟨⟨by decide, by decide, by decide⟩,
   C18_memory_copy sampleMemory 8192 4096 4 (by decide) (by decide) (by decide)⟩

/-- C19: for every memory state, non-null addresses `a` and `b` and every `n`,
`MemoryCompare(a, b, n)` returns, its result is true exactly when byte `i` at `a` equals
byte `i` at `b` for every `i < n`, and the memory after the call is the memory before it; in
particular `MemoryCompare(a, a, n)` is true and `MemoryCompare(a, b, 0)` is true. -/
theorem C19_memory_compare (m : Memory) (a b n : Nat)
    (ha : a ≠ nullptr) (hb : b ≠ nullptr) :
    (∃ r, MemoryCompare m a b n = Except.ok (m, r)
        ∧ (r = true ↔ ∀ i, i < n → m (a + i) = m (b + i)))
      ∧ MemoryCompare m a a n = Except.ok (m, true)
      ∧ MemoryCompare m a b 0 = Except.ok (m, true) := by
  refine ⟨⟨decide (memcmp m a b n = 0), ?_, ?_⟩, ?_, ?_⟩
  · unfold MemoryCompare
    rw [if_neg (by simp [ha, hb])]
  · rw [decide_eq_true_iff]
    exact memcmp_eq_zero_iff m n a b
  · have hzero : memcmp m a a n = 0 := (memcmp_eq_zero_iff m n a a).2 (fun _ _ => rfl)
    unfold MemoryCompare
    rw [if_neg (by simp [ha]), hzero]
    rfl
  · unfold MemoryCompare
    rw [if_neg (by simp [ha, hb])]
    rfl

/-- C19 in the sample memory, on the addresses 4096 and 8192 and 4 bytes: the regions
differ in their first byte. -/
theorem C19_memory_compare_witness :
    ((4096 : Nat) ≠ nullptr ∧ (8192 : Nat) ≠ nullptr)
      ∧ (∃ r, MemoryCompare sampleMemory 4096 8192 4 = Except.ok (sampleMemory, r)
          ∧ (r = true ↔ ∀ i, i < 4 → sampleMemory (4096 + i) = sampleMemory (8192 + i)))
      ∧ MemoryCompare sampleMemory 4096 4096 4 = Except.ok (sampleMemory, true)
      ∧ MemoryCompare sampleMemory 4096 8192 0 = Except.ok (sampleMemory, true) :=
  ⟨⟨by decide, by decide⟩, C19_memory_compare sampleMemory 4096 8192 4 (by decide) (by decide)⟩

/-- C20: for every memory state, value and size (0 included), each of `MemoryZero`,
`MemorySet`, `MemoryCopy` and `MemoryMove` raises the invalid-argument error exactly when
one of its pointer arguments is null, returns exactly when none is, and a call that raises
leaves the memory as it was before the call. -/
theorem C20_null_pointer_is_invalid_argument (m : Memory) (dst src value size : Nat) :
    ((MemoryZero m dst size = Except.error Fault.invalidArgument ↔ dst = nullptr)
        ∧ ((∃ m1, MemoryZero m dst size = Except.ok m1) ↔ ¬ dst = nullptr)
        ∧ (dst = nullptr → memoryAfter m (MemoryZero m dst size) = m))
      ∧ ((MemorySet m dst value size = Except.error Fault.invalidArgument ↔ dst = nullptr)
        ∧ ((∃ m1, MemorySet m dst value size = Except.ok m1) ↔ ¬ dst = nullptr)
        ∧ (dst = nullptr → memoryAfter m (MemorySet m dst value size) = m))
      ∧ ((MemoryCopy m dst src size = Except.error Fault.invalidArgument
            ↔ dst = nullptr ∨ src = nullptr)
        ∧ ((∃ m1, MemoryCopy m dst src size = Except.ok m1)
            ↔ ¬ (dst = nullptr ∨ src = nullptr))
        ∧ (dst = nullptr ∨ src = nullptr → memoryAfter m (MemoryCopy m dst src size) = m))
      ∧ ((MemoryMove m dst src size = Except.error Fault.invalidArgument
            ↔ dst = nullptr ∨ src = nullptr)
        ∧ ((∃ m1, MemoryMove m dst src size = Except.ok m1)
            ↔ ¬ (dst = nullptr ∨ src = nullptr))
        ∧ (dst = nullptr ∨ src = nullptr
            → memoryAfter m (MemoryMove m dst src size) = m)) := by
  refine ⟨?_, ?_, ?_, ?_⟩
  · unfold MemoryZero MemorySet
    by_cases h : dst = nullptr
    · simp [h, memoryAfter]
    · simp [h]
  · unfold MemorySet
    by_cases h : dst = nullptr
    · simp [h, memoryAfter]
    · simp [h]
  · unfold MemoryCopy
    by_cases h : dst = nullptr ∨ src = nullptr
    · simp [h, memoryAfter]
    · simp [h]
  · unfold MemoryMove
    by_cases h : dst = nullptr ∨ src = nullptr
    · simp [h, memoryAfter]
    · simp [h]

/-! ## The distance between two addresses -/

/-- C21 at its failing input: with a `Size` of 64 bits, `MemoryDistance(0x1000, 0x1010)` is
`2 ^ 64 - 16`, not 16; the 16 bytes between the two addresses are what the call with the
arguments exchanged returns. -/
theorem C21_memory_distance_is_start_minus_final :
    MemoryDistance 64 0x1000 0x1010 = 18446744073709551600
      ∧ MemoryDistance 64 0x1000 0x1010 ≠ 0x1010 - 0x1000
      ∧ MemoryDistance 64 0x1010 0x1000 = 16 := by
  refine ⟨?_, ?_, ?_⟩ <;> decide

/-! ## The heap policy -/

/-- C22: for every size, byte value and alignment, when the underlying aligned allocation
returns a non-null address `a`, `HeapAllocationPolicy::Callocate(size, value, alignment)`
returns `a`, every one of the `size` bytes in `[a, a + size)` equals `value`, and no byte
outside that block is modified. -/
theorem C22_heap_callocate_fills (H : Host) (pool : HeapPool H) (size value alignment : Nat)
    (heap1 : H.Heap) (a : Nat)
    (hmalloc : H.aligned_malloc pool.heap size alignment = (heap1, a))
    (ha : a ≠ nullptr) :
    ∃ pool1, (HeapAllocationPolicy H).Callocate pool size value alignment
        = Except.ok (pool1, a)
      ∧ pool1.heap = heap1
      ∧ (∀ i, i < size → pool1.memory (a + i) = value)
      ∧ (∀ x, ¬ (a ≤ x ∧ x < a + size) → pool1.memory x = pool.memory x) := by
  refine ⟨{ heap := heap1, memory := memset pool.memory a value size }, ?_, rfl, ?_, ?_⟩
  · simp only [HeapAllocationPolicy, hmalloc, MemorySet, if_neg ha]
  · intro i hi
    have hin : a ≤ a + i ∧ a + i < a + size := ⟨by omega, by omega⟩
    show memset pool.memory a value size (a + i) = value
    unfold memset
    rw [if_pos hin]
  · intro x hx
    show memset pool.memory a value size x = pool.memory x
    unfold memset
    rw [if_neg hx]

/-- C22 on the bump host of the scenarios: `Callocate(64, 255, 16)` on the pool whose first
free address is 4096. -/
theorem C22_heap_callocate_fills_witness :
    (bumpHost.aligned_malloc (4096 : Nat) 64 16 = ((4160 : Nat), 4096)
        ∧ (4096 : Nat) ≠ nullptr)
      ∧ ∃ pool1, (HeapAllocationPolicy bumpHost).Callocate
            { heap := (4096 : Nat), memory := fun _ => 0 } 64 255 16
          = Except.ok (pool1, 4096)
        ∧ pool1.heap = (4160 : Nat)
        ∧ (∀ i, i < 64 → pool1.memory (4096 + i) = 255)
        ∧ (∀ x, ¬ (4096 ≤ x ∧ x < 4096 + 64) → pool1.memory x = (fun _ => 0) x) :=
  ⟨⟨rfl, by decide⟩,
   C22_heap_callocate_fills bumpHost { heap := (4096 : Nat), memory := fun _ => 0 } 64 255 16
     (4160 : Nat) 4096 rfl (by decide)⟩

/-- C23 at its failing input: over a host whose aligned allocation returns null,
`HeapAllocationPolicy::Allocate(64, 16)` returns null, but
`HeapAllocationPolicy::Callocate(64, 0, 16)` raises the invalid-argument error of
`MemorySet`, and so does `Allocator::Callocate(64, 0, 16)` over that policy. -/
theorem C23_heap_callocate_raises :
    (HeapAllocationPolicy exhaustedHost).Allocate exhaustedAllocator.m_allocation_policy 64 16
        = Except.ok (exhaustedAllocator.m_allocation_policy, nullptr)
      ∧ (HeapAllocationPolicy exhaustedHost).Callocate
          exhaustedAllocator.m_allocation_policy 64 0 16
        = Except.error Fault.invalidArgument
      ∧ Allocator.Callocate 64 exhaustedAllocator 64 0 16
        = Except.error Fault.invalidArgument := by
  refine ⟨?_, ?_, ?_⟩ <;> rfl

/-! ## The object-lifecycle operations -/

/-- The calls recorded by a loop whose body records one call per element. -/
theorem forCounter_calls (body : Objects → Nat → Objects) (f : Nat → LifecycleCall)
    (hbody : ∀ s i, (body s i).calls = s.calls ++ [f i]) (count : Nat) (s : Objects) :
    (forCounter count body s).calls = s.calls ++ (List.range count).map f := by
  have hfold : ∀ (l : List Nat) (s0 : Objects),
      (l.foldl body s0).calls = s0.calls ++ l.map f := by
    intro l
    induction l with
    | nil => intro s0; simp
    | cons i rest ih =>
      intro s0
      rw [List.foldl_cons, ih, hbody, List.map_cons, List.append_assoc]
      rfl
  exact hfold (List.range count) s

/-- C25: for a managed element type and every count, `ConstructArray(p, count)` makes
exactly the `count` default-constructor calls on the elements `0 .. count - 1`, in index
order, and no other lifecycle call; `DestructArray(p, count)` makes exactly the `count`
destructor calls; `CopyArray` and `MoveArray(dst, src, count)` make exactly the `count`
copy- and move-assignment calls, element by element, and no constructor or destructor call;
and each Object variant makes exactly one such call.  The calls are the ones appended to the
record of calls. -/
theorem C25_managed_lifecycle_calls (w : Nat) (T : ElementType) (s : Objects)
    (p dst src count : Nat) (hmanaged : T.is_pod = false) :
    (ConstructArray T s p count).calls
        = s.calls ++ (List.range count).map
            (fun i => LifecycleCall.defaultConstruct (p + i * T.sizeof))
      ∧ (∃ s1, DestructArray w T s p count = Except.ok s1
        ∧ s1.calls = s.calls ++ (List.range count).map
            (fun i => LifecycleCall.destruct (p + i * T.sizeof)))
      ∧ (∃ s1, CopyArray w T s dst src count = Except.ok s1
        ∧ s1.calls = s.calls ++ (List.range count).map
            (fun i => LifecycleCall.copyAssign (dst + i * T.sizeof) (src + i * T.sizeof)))
      ∧ (∃ s1, MoveArray w T s dst src count = Except.ok s1
        ∧ s1.calls = s.calls ++ (List.range count).map
            (fun i => LifecycleCall.moveAssign (dst + i * T.sizeof) (src + i * T.sizeof)))
      ∧ (ConstructObject T s p).calls = s.calls ++ [LifecycleCall.defaultConstruct p]
      ∧ (∃ s1, DestructObject T s p = Except.ok s1
        ∧ s1.calls = s.calls ++ [LifecycleCall.destruct p])
      ∧ (∃ s1, CopyObject T s dst src = Except.ok s1
        ∧ s1.calls = s.calls ++ [LifecycleCall.copyAssign dst src])
      ∧ (∃ s1, MoveObject T s dst src = Except.ok s1
        ∧ s1.calls = s.calls ++ [LifecycleCall.moveAssign dst src]) := by
  have hfalse : ¬ (false = true) := by decide
  refine ⟨?_, ?_, ?_, ?_, ?_, ?_, ?_, ?_⟩
  · unfold ConstructArray
    rw [hmanaged, if_neg hfalse]
    exact forCounter_calls _ _ (fun _ _ => rfl) count s
  · unfold DestructArray
    rw [hmanaged, if_neg hfalse]
    exact ⟨_, rfl, forCounter_calls _ _ (fun _ _ => rfl) count s⟩
  · unfold CopyArray
    rw [hmanaged, if_neg hfalse]
    exact ⟨_, rfl, forCounter_calls _ _ (fun _ _ => rfl) count s⟩
  · unfold MoveArray
    rw [hmanaged, if_neg hfalse]
    exact ⟨_, rfl, forCounter_calls _ _ (fun _ _ => rfl) count s⟩
  · unfold ConstructObject
    rw [hmanaged, if_neg hfalse]
    rfl
  · unfold DestructObject
    rw [hmanaged, if_neg hfalse]
    exact ⟨_, rfl, rfl⟩
  · unfold CopyObject
    rw [hmanaged, if_neg hfalse]
    exact ⟨_, rfl, rfl⟩
  · unfold MoveObject
    rw [hmanaged, if_neg hfalse]
    exact ⟨_, rfl, rfl⟩

/-- C25 on the managed type of the scenarios (8 bytes) and 3 elements: the arrays at 4096
and 8192. -/
theorem C25_managed_lifecycle_calls_witness :
    managedType.is_pod = false
      ∧ (ConstructArray managedType sampleObjects 4096 3).calls
          = [LifecycleCall.defaultConstruct 4096, LifecycleCall.defaultConstruct 4104,
              LifecycleCall.defaultConstruct 4112]
      ∧ (ConstructArray managedType sampleObjects 4096 3).calls
          = sampleObjects.calls ++ (List.range 3).map
              (fun i => LifecycleCall.defaultConstruct (4096 + i * managedType.sizeof)) :=
  ⟨rfl, rfl,
   (C25_managed_lifecycle_calls 64 managedType sampleObjects 4096 8192 4096 3 rfl).1⟩

/-! ## The typed destruct operations of the allocator -/

/-- C26 at every input: whatever the allocator, the address, the count and the depth of nested
activations allowed, `Allocator::DestructObject<T>(address)` and
`Allocator::DestructArray<T>(address, count)` have not returned: each begins by calling
itself with the same arguments, so neither the destruct primitive of the Memory Utilities nor
`Deallocate` is ever reached and `num_deallocations` is never increased. -/
theorem C26_allocator_destruct_never_returns (w : Nat) (P : Policy) (self : Allocator P)
    (address : VoidPtr) (count fuel : Nat) :
    Allocator.DestructObject w self address fuel = none
      ∧ Allocator.DestructArray w self address count fuel = none := by
  induction fuel with
  | zero => exact ⟨rfl, rfl⟩
  | succ fuel ih =>
    constructor
    · unfold Allocator.DestructObject
      rw [ih.1]
    · unfold Allocator.DestructArray
      rw [ih.2]

/-! ## The peak size against the total size -/

/-- Subtracting the size attributed to an address, which is 0, leaves a total that is a
`Size` as it was. -/
theorem sizeSub_zero (w total : Nat) (h : total < 2 ^ w) :
    Allocator.sizeSub w total 0 = total := by
  unfold Allocator.sizeSub
  rw [Nat.zero_mod, Nat.sub_zero, Nat.add_mod_right, Nat.mod_eq_of_lt h]

/-- The peak and the total after an `Allocate` that returns. -/
theorem allocate_statistics {P : Policy} (w : Nat) (self self1 : Allocator P)
    (size alignment : Nat) (address : VoidPtr)
    (h : Allocator.Allocate w self size alignment = Except.ok (self1, address)) :
    self.m_allocation_stats.m_peak_size ≤ self1.m_allocation_stats.m_peak_size
      ∧ ((self1.m_allocation_stats.m_peak_size = self.m_allocation_stats.m_peak_size
          ∧ self1.m_allocation_stats.m_total_size = self.m_allocation_stats.m_total_size)
        ∨ (self1.m_allocation_stats.m_peak_size
            ≤ max self.m_allocation_stats.m_peak_size size
          ∧ self1.m_allocation_stats.m_total_size
            = (self.m_allocation_stats.m_total_size + size) % 2 ^ w)) := by
  unfold Allocator.Allocate Allocator.usedSpace at h
  repeat' split at h
  all_goals first
    | (cases h; exact ⟨Nat.le_refl _, Or.inl ⟨rfl, rfl⟩⟩)
    | (cases h; exact ⟨by simp only []; omega, Or.inr ⟨by simp only []; omega, rfl⟩⟩)
    | cases h

/-- The peak and the total after a `Callocate` that returns. -/
theorem callocate_statistics {P : Policy} (w : Nat) (self self1 : Allocator P)
    (size value alignment : Nat) (address : VoidPtr)
    (h : Allocator.Callocate w self size value alignment = Except.ok (self1, address)) :
    self.m_allocation_stats.m_peak_size ≤ self1.m_allocation_stats.m_peak_size
      ∧ ((self1.m_allocation_stats.m_peak_size = self.m_allocation_stats.m_peak_size
          ∧ self1.m_allocation_stats.m_total_size = self.m_allocation_stats.m_total_size)
        ∨ (self1.m_allocation_stats.m_peak_size
            ≤ max self.m_allocation_stats.m_peak_size size
          ∧ self1.m_allocation_stats.m_total_size
            = (self.m_allocation_stats.m_total_size + size) % 2 ^ w)) := by
  unfold Allocator.Callocate Allocator.usedSpace at h
  repeat' split at h
  all_goals first
    | (cases h; exact ⟨Nat.le_refl _, Or.inl ⟨rfl, rfl⟩⟩)
    | (cases h; exact ⟨by simp only []; omega, Or.inr ⟨by simp only []; omega, rfl⟩⟩)
    | cases h

/-- The peak and the total after a `Deallocate` that returns. -/
theorem deallocate_statistics {P : Policy} (w : Nat) (self self1 : Allocator P)
    (address : VoidPtr) (h : Allocator.Deallocate w self address = Except.ok self1) :
    self1.m_allocation_stats.m_peak_size = self.m_allocation_stats.m_peak_size
      ∧ self1.m_allocation_stats.m_total_size
          = Allocator.sizeSub w self.m_allocation_stats.m_total_size 0 := by
  unfold Allocator.Deallocate Allocator.usedSpace Allocator.GetAllocatedSize at h
  repeat' split at h
  all_goals first | (cases h; exact ⟨rfl, rfl⟩) | cases h

/-- The peak and the total after a `Reallocate` that returns. -/
theorem reallocate_statistics {P : Policy} (w : Nat) (self self1 : Allocator P)
    (old : VoidPtr) (size alignment : Nat) (address : VoidPtr)
    (h : Allocator.Reallocate w self old size alignment = Except.ok (self1, address)) :
    self.m_allocation_stats.m_peak_size ≤ self1.m_allocation_stats.m_peak_size
      ∧ ((self1.m_allocation_stats.m_peak_size = self.m_allocation_stats.m_peak_size
          ∧ self1.m_allocation_stats.m_total_size = self.m_allocation_stats.m_total_size)
        ∨ (self1.m_allocation_stats.m_peak_size
            ≤ max self.m_allocation_stats.m_peak_size size
          ∧ self1.m_allocation_stats.m_total_size
            = (Allocator.sizeSub w self.m_allocation_stats.m_total_size 0 + size)
                % 2 ^ w)) := by
  unfold Allocator.Reallocate at h
  by_cases hzero : size = 0
  · rw [if_pos hzero] at h
    cases hd : Allocator.Deallocate w self old with
    | error e => rw [hd] at h; cases h
    | ok self2 =>
      rw [hd] at h
      cases h
      obtain ⟨hpeak, htotal⟩ := deallocate_statistics w self self1 old hd
      refine ⟨by omega, Or.inr ⟨by omega, ?_⟩⟩
      rw [htotal, hzero, Nat.add_zero]
      unfold Allocator.sizeSub
      rw [Nat.mod_mod]
  · rw [if_neg hzero] at h
    unfold Allocator.usedSpace Allocator.GetAllocatedSize at h
    repeat' split at h
    all_goals first
      | (cases h; exact ⟨Nat.le_refl _, Or.inl ⟨rfl, rfl⟩⟩)
      | (cases h; exact ⟨by simp only []; omega, Or.inr ⟨by simp only []; omega, rfl⟩⟩)
      | cases h

/-- `Initialize` that returns leaves the peak and the total at 0. -/
theorem initialize_statistics {P : Policy} (prior self : Allocator P) (capacity : Nat)
    (h : Allocator.Initialize prior capacity = Except.ok self) :
    self.m_allocation_stats.m_peak_size = 0 ∧ self.m_allocation_stats.m_total_size = 0 := by
  unfold Allocator.Initialize at h
  split at h
  · cases h
  · cases h; exact ⟨rfl, rfl⟩

/-- `Reset` that returns leaves the peak and the total at 0. -/
theorem reset_statistics {P : Policy} (self self1 : Allocator P)
    (h : Allocator.Reset self = Except.ok self1) :
    self1.m_allocation_stats.m_peak_size = 0 ∧ self1.m_allocation_stats.m_total_size = 0 := by
  unfold Allocator.Reset at h
  split at h
  · cases h
  · cases h; exact ⟨rfl, rfl⟩

/-- In a state reached by calls whose requested sizes sum to `requested`, below the `Size`
range, the peak is at most the total and the total is at most `requested`.  This rests on
`GetAllocatedSize` returning 0 for every address (`sizeSub_zero` in the cases of `Deallocate`
and `Reallocate`): in this code no call other than `Reset` ever reduces `m_total_size`.  It
is a fact about the body `return 0;`, and is lost as soon as `GetAllocatedSize` returns the
size of a live block: `Allocate(64, 16)` followed by `Deallocate` then leaves the peak at 64
and the total at 0. -/
theorem reachableWithin_invariant {P : Policy} (w capacity requested : Nat)
    (self : Allocator P) (h : ReachableWithin w capacity requested self) :
    requested < 2 ^ w →
      self.m_allocation_stats.m_peak_size ≤ self.m_allocation_stats.m_total_size
        ∧ self.m_allocation_stats.m_total_size ≤ requested := by
  induction h with
  | start prior self hinit =>
    intro _
    obtain ⟨hp, ht⟩ := initialize_statistics prior self capacity hinit
    omega
  | allocate requested self self1 size alignment address _ hcall ih =>
    intro hlt
    obtain ⟨hpt, htr⟩ := ih (by omega)
    obtain ⟨_, hcase⟩ := allocate_statistics w self self1 size alignment address hcall
    rcases hcase with ⟨hp, ht⟩ | ⟨hp, ht⟩
    · omega
    · rw [Nat.mod_eq_of_lt (by omega)] at ht
      omega
  | callocate requested self self1 size value alignment address _ hcall ih =>
    intro hlt
    obtain ⟨hpt, htr⟩ := ih (by omega)
    obtain ⟨_, hcase⟩ := callocate_statistics w self self1 size value alignment address hcall
    rcases hcase with ⟨hp, ht⟩ | ⟨hp, ht⟩
    · omega
    · rw [Nat.mod_eq_of_lt (by omega)] at ht
      omega
  | reallocate requested self self1 old size alignment address _ hcall ih =>
    intro hlt
    obtain ⟨hpt, htr⟩ := ih (by omega)
    obtain ⟨_, hcase⟩ := reallocate_statistics w self self1 old size alignment address hcall
    rcases hcase with ⟨hp, ht⟩ | ⟨hp, ht⟩
    · omega
    · rw [sizeSub_zero w _ (by omega), Nat.mod_eq_of_lt (by omega)] at ht
      omega
  | deallocate requested self self1 address _ hcall ih =>
    intro hlt
    obtain ⟨hpt, htr⟩ := ih hlt
    obtain ⟨hp, ht⟩ := deallocate_statistics w self self1 address hcall
    rw [sizeSub_zero w _ (by omega)] at ht
    omega
  | reset requested self self1 _ hcall ih =>
    intro _
    obtain ⟨hp, ht⟩ := reset_statistics self self1 hcall
    omega

/-- From every state, an `Allocate`, a `Callocate`, a `Reallocate` or a `Deallocate` that
returns does not decrease `peak_size`. -/
theorem peak_size_not_decreased (w : Nat) (P : Policy) (self : Allocator P) :
    (∀ (size alignment : Nat) (self1 : Allocator P) (a : VoidPtr),
        Allocator.Allocate w self size alignment = Except.ok (self1, a) →
        self.GetPeakSize ≤ self1.GetPeakSize)
      ∧ (∀ (size value alignment : Nat) (self1 : Allocator P) (a : VoidPtr),
          Allocator.Callocate w self size value alignment = Except.ok (self1, a) →
          self.GetPeakSize ≤ self1.GetPeakSize)
      ∧ (∀ (old : VoidPtr) (size alignment : Nat) (self1 : Allocator P) (a : VoidPtr),
          Allocator.Reallocate w self old size alignment = Except.ok (self1, a) →
          self.GetPeakSize ≤ self1.GetPeakSize)
      ∧ (∀ (address : VoidPtr) (self1 : Allocator P),
          Allocator.Deallocate w self address = Except.ok self1 →
          self.GetPeakSize ≤ self1.GetPeakSize) := by
  refine ⟨?_, ?_, ?_, ?_⟩
  · intro size alignment self1 a h
    exact (allocate_statistics w self self1 size alignment a h).1
  · intro size value alignment self1 a h
    exact (callocate_statistics w self self1 size value alignment a h).1
  · intro old size alignment self1 a h
    exact (reallocate_statistics w self self1 old size alignment a h).1
  · intro address self1 h
    exact Nat.le_of_eq (deallocate_statistics w self self1 address h).1.symm

end Forge
